import Mathlib

/-!
StudyAI front end: the conversation store.

A shallow embedding of `frontend/src/store.js` (the zustand store that owns the
active session, the live transcript and the persisted chat history), of the
message classifier and `sendMessage` of `components/ChatPanel.jsx`, of
`handleStart` of `components/SetupModal.jsx`, and of the voice hook of
`useVoice.js`, followed by the properties of their operations.

Modelling conventions.

* A JavaScript object used as a dictionary (`chatHistory`) is a list of
  `(key, value)` pairs in property order.  Reading `obj[k]` is `JsObject.getProp`,
  the spread-and-override literal `{...obj, [k]: v}` is `JsObject.setProp`, and
  `delete obj[k]` is `JsObject.deleteProp`.  `JsObject.getProp` reads own
  properties; a read `obj[k]` of a key that is not an own property finds the
  member that every plain object inherits when `k` is one of `inheritedNames`,
  and the store actions that test such a read for truthiness take this into
  account.
* `Date.now()` is an explicit argument `now`, and the answer of
  `window.confirm` is an explicit argument `confirmed`.
* `set(partial)` of zustand merges `partial` over the current state, so every
  field that a setter does not mention keeps its value.
* A text is a sequence of characters (code points); `substring(0, n)` counts
  UTF-16 code units and may cut a character outside the Basic Multilingual
  Plane in two, so its result is kept as a sequence of code units (`Utf16`).
* An `async` handler is split at its `await`: the part before it returns the
  request it makes, the part after it takes the outcome of the call.
* `JSON.parse` is an argument of the classifier; `jsonParse` is a reference
  parser for concrete runs.
* The voice hook is a state with the calls it has made; the browser's callbacks
  are events, and a handler can fire only once its object has been set up.
-/

namespace StudyAI

/-! ## JavaScript objects as dictionaries -/

/-- A plain JavaScript object with string keys, in the order the keys were
added (JavaScript lists keys that are array indices first; no statement below
depends on the order of keys). -/
abbrev JsObject (α : Type) := List (String × α)

namespace JsObject

variable {α : Type}

/-- The property read `obj[k]`; `none` stands for `undefined`. -/
def getProp : JsObject α → String → Option α
  | [], _ => none
  | (k', v) :: rest, k => if k' = k then some v else getProp rest k

/-- The object literal `{...obj, [k]: v}`: an existing key keeps its place and
takes the new value, a new key is added last. -/
def setProp : JsObject α → String → α → JsObject α
  | [], k, v => [(k, v)]
  | (k', v') :: rest, k, v =>
    if k' = k then (k, v) :: rest else (k', v') :: setProp rest k v

/-- The statement `delete obj[k]` on a copy of `obj`. -/
def deleteProp : JsObject α → String → JsObject α
  | [], _ => []
  | (k', v) :: rest, k =>
    if k' = k then deleteProp rest k else (k', v) :: deleteProp rest k

/-- The keys of the object, `Object.keys(obj)`. -/
def keys (obj : JsObject α) : List String :=
  obj.map Prod.fst

end JsObject

/-- The names of the members that every plain object inherits from
`Object.prototype`.  For such a name `obj[k]` is a function, or the prototype
itself for `__proto__`, unless `obj` has an own property `k`: a truthy value
with no `messages` and no own enumerable property. -/
def inheritedNames : List String :=
  ["constructor", "hasOwnProperty", "isPrototypeOf", "propertyIsEnumerable",
   "toLocaleString", "toString", "valueOf", "__proto__", "__defineGetter__",
   "__defineSetter__", "__lookupGetter__", "__lookupSetter__"]

/-- A JavaScript string value as the sequence of its UTF-16 code units. -/
abbrev Utf16 := List Nat

/-- The UTF-16 code units of one character: the code point itself in the Basic
Multilingual Plane, a surrogate pair above it. -/
def utf16Units (c : Char) : List Nat :=
  if c.toNat < 0x10000 then [c.toNat]
  else [0xD800 + (c.toNat - 0x10000) / 0x400, 0xDC00 + (c.toNat - 0x10000) % 0x400]

/-- The UTF-16 code units of a list of characters. -/
def utf16OfChars : List Char → Utf16
  | [] => []
  | c :: cs => utf16Units c ++ utf16OfChars cs

/-- The UTF-16 code units of a text, the units JavaScript indexes a string by. -/
def toUtf16 (str : String) : Utf16 :=
  utf16OfChars str.data

/-! ## Data model -/

/-- The `role` of a message: `"user"` for the student, `"ai"` for the assistant. -/
inductive Role where
  | user
  | ai
deriving DecidableEq, Repr

/-- A chat message `{ role, content, suggestions }`; `suggestions` is absent on
user messages and when the backend sends none. -/
structure Message where
  role : Role
  content : String
  suggestions : Option (List String)
deriving DecidableEq, Repr

/-- A session object.  The backend's answer to `/session/create` carries
`session_id` and `student_name`; whatever else it carries is kept in `extra`. -/
structure Session where
  session_id : String
  student_name : String
  extra : List (String × String)
deriving DecidableEq, Repr

/-- One entry of `chatHistory`: `{ title, timestamp, messages }`.  The title is
a string value in code units; `title` and `timestamp` are `none` on an entry
that was written without them. -/
structure ChatEntry where
  title : Option Utf16
  timestamp : Option Nat
  messages : List Message
deriving DecidableEq, Repr

/-- The `chatHistory` object: session id to entry. -/
abbrev ChatHistory := JsObject ChatEntry

/-- One step of `roadmapData`. -/
structure RoadmapStep where
  title : String
  duration : String
  description : String
deriving DecidableEq, Repr

/-- An uploaded document as listed by the backend. -/
structure Document where
  doc_id : String
  filename : String
deriving DecidableEq, Repr

/-- The state held by `useStore`. -/
structure StoreState where
  theme : String
  session : Option Session
  sessionStartTime : Nat
  messages : List Message
  chatHistory : ChatHistory
  activeView : String
  level : String
  mode : String
  activeTopic : String
  topicProgress : Nat
  roadmapData : List RoadmapStep
  documents : List Document
deriving DecidableEq, Repr

/-- The state the store is created with; `now` is `Date.now()` at creation. -/
def initialState (now : Nat) : StoreState where
  theme := "dark"
  session := none
  sessionStartTime := now
  messages := []
  chatHistory := []
  activeView := "chat"
  level := "intermediate"
  mode := "quick"
  activeTopic := "General Learning"
  topicProgress := 0
  roadmapData := []
  documents := []

/-! ## Store operations -/

/-- The JavaScript `str.substring(0, n)`: the first `n` code units. -/
def substring0 (str : String) (n : Nat) : Utf16 :=
  (toUtf16 str).take n

/-- Store action `setSession(s)`: install `s`, empty the live transcript and
restart the session clock. -/
def setSession (now : Nat) (s : Session) (state : StoreState) : StoreState :=
  { state with session := some s, messages := [], sessionStartTime := now }

/-- Store action `addMessage(msg)`: nothing without an active session; otherwise the message
goes to the end of the live transcript and the entry of the active session
takes the new live transcript.  `state.chatHistory[sid] || {...}` is the own
entry when there is one; else, for a session id in `inheritedNames`, the
inherited member, whose spread copies nothing, so that the entry written has
only `messages`; else the fresh entry with title and timestamp. -/
def addMessage (now : Nat) (msg : Message) (state : StoreState) : StoreState :=
  match state.session with
  | none => state
  | some currentSession =>
    let sid := currentSession.session_id
    let newMessages := state.messages ++ [msg]
    let existingHistory : ChatEntry :=
      match state.chatHistory.getProp sid with
      | some entry => entry
      | none =>
        if sid ∈ inheritedNames then
          { title := none, timestamp := none, messages := [] }
        else
          { title := some (substring0 msg.content 35 ++ toUtf16 "...")
            timestamp := some now
            messages := [] }
    { state with
      messages := newMessages
      chatHistory :=
        state.chatHistory.setProp sid { existingHistory with messages := newMessages } }

/-- Store action `loadChat(sid)`: when `chatHistory[sid]` is truthy, show its
messages and make a stub session for `sid` the active one.  An own entry is an
object and its `messages` an array, both truthy, so `chat.messages || []` is
`chat.messages`; for a `sid` in `inheritedNames` without an own entry the read
finds the inherited member, which is truthy and has no `messages`, so the
transcript shown is `[]`. -/
def loadChat (sid : String) (state : StoreState) : StoreState :=
  match state.chatHistory.getProp sid with
  | some chat =>
    { state with
      messages := chat.messages
      session := some { session_id := sid, student_name := "User", extra := [] } }
  | none =>
    if sid ∈ inheritedNames then
      { state with
        messages := []
        session := some { session_id := sid, student_name := "User", extra := [] } }
    else state

/-- Store action `deleteChat(sid)`; `isCurrent` is
`state.session?.session_id === sid`, false when no session is active. -/
def deleteChat (sid : String) (state : StoreState) : StoreState :=
  let newHistory := state.chatHistory.deleteProp sid
  let isCurrent : Bool :=
    match state.session with
    | some s => decide (s.session_id = sid)
    | none => false
  { state with
    chatHistory := newHistory
    messages := if isCurrent then [] else state.messages
    session := if isCurrent then none else state.session }

/-- Store action `clearAllHistory()`, with the user's answer to the confirmation dialog. -/
def clearAllHistory (confirmed : Bool) (state : StoreState) : StoreState :=
  if confirmed then
    { state with chatHistory := [], messages := [], session := none }
  else state

/-- What `partialize` hands to the persistence middleware. -/
structure Snapshot where
  theme : String
  chatHistory : ChatHistory
  level : String
  mode : String
deriving DecidableEq, Repr

/-- The `partialize` option of the `persist` middleware. -/
def partialize (state : StoreState) : Snapshot where
  theme := state.theme
  chatHistory := state.chatHistory
  level := state.level
  mode := state.mode

/-- The messages stored for `sid`, if `chatHistory` has an entry for it. -/
def storedMessages (state : StoreState) (sid : String) : Option (List Message) :=
  (state.chatHistory.getProp sid).map ChatEntry.messages

/-- A run of `addMessage` calls, each with its own clock reading. -/
def addMessages (calls : List (Nat × Message)) (state : StoreState) : StoreState :=
  calls.foldl (fun st c => addMessage c.1 c.2 st) state

/-- One call of a history-managing store action, with the values it reads from
its environment (`Date.now()`, `window.confirm`). -/
inductive StoreOp where
  | setSession (now : Nat) (s : Session)
  | addMessage (now : Nat) (msg : Message)
  | loadChat (sid : String)
  | deleteChat (sid : String)
  | clearAllHistory (confirmed : Bool)
deriving DecidableEq, Repr

/-- The effect of one call on the store. -/
def StoreOp.apply : StoreOp → StoreState → StoreState
  | .setSession now s, state => StudyAI.setSession now s state
  | .addMessage now msg, state => StudyAI.addMessage now msg state
  | .loadChat sid, state => StudyAI.loadChat sid state
  | .deleteChat sid, state => StudyAI.deleteChat sid state
  | .clearAllHistory confirmed, state => StudyAI.clearAllHistory confirmed state

/-- The store after a sequence of calls, first call first. -/
def runOps : List StoreOp → StoreState → StoreState
  | [], state => state
  | op :: rest, state => runOps rest (op.apply state)

/-- A call that does not reuse a stored session id: `setSession(s)` counts only
when `chatHistory` has no entry for `s.session_id` (a session the backend has
just created); every other call counts. -/
def StoreOp.startsFresh : StoreOp → StoreState → Bool
  | .setSession _ s, state => (state.chatHistory.getProp s.session_id).isNone
  | _, _ => true

/-- Every `setSession` of the run installs a session whose id has no stored
entry at that moment. -/
def freshRun : List StoreOp → StoreState → Bool
  | [], _ => true
  | op :: rest, state => op.startsFresh state && freshRun rest (op.apply state)

/-- The stored transcript of the active session agrees with the live one: the
entry of the active session, if there is one, holds the live transcript, and
the live transcript is empty if there is none. -/
def StoredMatchesLive (state : StoreState) : Prop :=
  ∀ S, state.session = some S →
    (storedMessages state S.session_id).getD [] = state.messages

/-! ## Strings -/

/-- The characters that `String.prototype.trim` removes: the white space and
line terminator code points of ECMAScript. -/
def isJsWhiteSpace (c : Char) : Bool :=
  c.toNat = 0x09 || c.toNat = 0x0A || c.toNat = 0x0B || c.toNat = 0x0C ||
  c.toNat = 0x0D || c.toNat = 0x20 || c.toNat = 0xA0 || c.toNat = 0x1680 ||
  (0x2000 ≤ c.toNat && c.toNat ≤ 0x200A) || c.toNat = 0x2028 || c.toNat = 0x2029 ||
  c.toNat = 0x202F || c.toNat = 0x205F || c.toNat = 0x3000 || c.toNat = 0xFEFF

/-- The characters of `str.trim()`. -/
def trimChars (cs : List Char) : List Char :=
  ((cs.dropWhile isJsWhiteSpace).reverse.dropWhile isJsWhiteSpace).reverse

/-- Whether a text is empty or consists only of white space. -/
def isBlank (str : String) : Bool :=
  str.data.all isJsWhiteSpace

/-- The JavaScript `str.trim()`. -/
def jsTrim (str : String) : String :=
  String.mk (trimChars str.data)

/-- Whether the text `cs` begins with `pat`, comparing characters after `norm`
(the identity for a plain pattern, lower-casing for the `i` flag). -/
def startsWithChars (norm : Char → Char) : List Char → List Char → Bool
  | [], _ => true
  | _ :: _, [] => false
  | p :: ps, c :: cs => norm p = norm c && startsWithChars norm ps cs

/-- The first alternative that matches at the start of `cs`, in the order the
alternatives are written. -/
def firstMatch (norm : Char → Char) (pats : List (List Char)) (cs : List Char) :
    Option (List Char) :=
  pats.find? (fun pat => startsWithChars norm pat cs)

/-- The scan of `str.replace(/p1|p2|.../g, "")` for non-empty literal
alternatives: matches are taken leftmost and do not overlap.  `skip` counts the
characters of the current match that are still to be dropped. -/
def removeMatches (norm : Char → Char) (pats : List (List Char)) :
    Nat → List Char → List Char
  | _, [] => []
  | skip + 1, _ :: cs => removeMatches norm pats skip cs
  | 0, c :: cs =>
    match firstMatch norm pats (c :: cs) with
    | some pat => removeMatches norm pats (pat.length - 1) cs
    | none => c :: removeMatches norm pats 0 cs

/-- The JavaScript `str.replace(/pat/g, "")` for a literal, non-empty `pat`. -/
def removeAll (pat : String) (str : String) : String :=
  String.mk (removeMatches id [pat.data] 0 str.data)

/-- Whether `pat` occurs in `cs` (`includes` on character lists). -/
def includesChars (pat : List Char) : List Char → Bool
  | [] => pat.isEmpty
  | c :: cs => startsWithChars id pat (c :: cs) || includesChars pat cs

/-- The JavaScript `str.toLowerCase().includes(pat)` for a pattern of lower-case
ASCII letters other than `i` and `k`: no character outside ASCII lower-cases to
one of these letters, so lower-casing the ASCII letters is enough. -/
def lowerIncludes (str : String) (pat : String) : Bool :=
  includesChars pat.data (str.data.map Char.toLower)

/-! ## JSON values and the platform parser -/

/-- A value produced by `JSON.parse`.  A number is kept as the decimal it was
written as, `mantissa * 10 ^ exponent`; an object keeps one value per key. -/
inductive Json where
  | null
  | bool (b : Bool)
  | num (mantissa : Int) (exponent : Int)
  | str (s : String)
  | arr (items : List Json)
  | obj (fields : List (String × Json))
deriving Repr

/-- JavaScript truthiness of a value that may be `undefined` (`none`).  A number
is falsy when it is zero as a double: written as zero, or of magnitude at most
`2 ^ (-1075)`, which rounds to zero. -/
def truthy : Option Json → Bool
  | none => false
  | some Json.null => false
  | some (Json.bool b) => b
  | some (Json.num m e) =>
    decide (m ≠ 0) && !(decide (e < 0) && decide (m.natAbs * 2 ^ 1075 ≤ 10 ^ e.natAbs))
  | some (Json.str s) => decide (s ≠ "")
  | some (Json.arr _) => true
  | some (Json.obj _) => true

/-- The optional chain `v?.key` for a key that no array, string, number or
boolean has (such as `question`, `options`): the own property of an object,
`undefined` otherwise. -/
def optionalProp (v : Option Json) (key : String) : Option Json :=
  match v with
  | some (Json.obj fields) => JsObject.getProp fields key
  | _ => none

/-- White space between JSON tokens. -/
def isJsonWhiteSpace (c : Char) : Bool :=
  c = ' ' || c = '\t' || c = '\n' || c = '\r'

/-- Drop the white space in front of the next token. -/
def skipWs (cs : List Char) : List Char :=
  cs.dropWhile isJsonWhiteSpace

/-- The value of a hexadecimal digit. -/
def hexDigit (c : Char) : Option Nat :=
  if '0' ≤ c ∧ c ≤ '9' then some (c.toNat - '0'.toNat)
  else if 'a' ≤ c ∧ c ≤ 'f' then some (c.toNat - 'a'.toNat + 10)
  else if 'A' ≤ c ∧ c ≤ 'F' then some (c.toNat - 'A'.toNat + 10)
  else none

/-- The code unit written as four hexadecimal digits. -/
def hex4 (a b c d : Char) : Option Nat :=
  match hexDigit a, hexDigit b, hexDigit c, hexDigit d with
  | some x, some y, some z, some w => some (((x * 16 + y) * 16 + z) * 16 + w)
  | _, _, _, _ => none

/-- The character of an escaped code unit; a surrogate half that stands alone,
which a string of characters cannot hold, is read as U+FFFD. -/
def codeUnitChar (n : Nat) : Char :=
  if 0xD800 ≤ n ∧ n ≤ 0xDFFF then Char.ofNat 0xFFFD else Char.ofNat n

/-- The character of an escaped surrogate pair: when `n` is a high surrogate
and the text goes on with the escape of a low surrogate, the character the two
encode and the text after the second escape. -/
def surrogatePair (n : Nat) (rest : List Char) : Option (Char × List Char) :=
  if 0xD800 ≤ n ∧ n ≤ 0xDBFF then
    match rest with
    | '\\' :: 'u' :: h1 :: h2 :: h3 :: h4 :: rest1 =>
      match hex4 h1 h2 h3 h4 with
      | some m =>
        if 0xDC00 ≤ m ∧ m ≤ 0xDFFF then
          some (Char.ofNat (0x10000 + (n - 0xD800) * 0x400 + (m - 0xDC00)), rest1)
        else none
      | none => none
    | _ => none
  else none

/-- The rest of a JSON string after its opening quote: the characters up to the
closing quote with escapes resolved, and what follows the string. -/
def parseStringBody : Nat → List Char → List Char → Option (String × List Char)
  | 0, _, _ => none
  | _ + 1, [], _ => none
  | fuel + 1, c :: rest, acc =>
    if c = '"' then some (String.mk acc.reverse, rest)
    else if c = '\\' then
      match rest with
      | '"' :: rest1 => parseStringBody fuel rest1 ('"' :: acc)
      | '\\' :: rest1 => parseStringBody fuel rest1 ('\\' :: acc)
      | '/' :: rest1 => parseStringBody fuel rest1 ('/' :: acc)
      | 'b' :: rest1 => parseStringBody fuel rest1 (Char.ofNat 8 :: acc)
      | 'f' :: rest1 => parseStringBody fuel rest1 (Char.ofNat 12 :: acc)
      | 'n' :: rest1 => parseStringBody fuel rest1 ('\n' :: acc)
      | 'r' :: rest1 => parseStringBody fuel rest1 ('\r' :: acc)
      | 't' :: rest1 => parseStringBody fuel rest1 ('\t' :: acc)
      | 'u' :: h1 :: h2 :: h3 :: h4 :: rest1 =>
        match hex4 h1 h2 h3 h4 with
        | some n =>
          match surrogatePair n rest1 with
          | some (ch, rest2) => parseStringBody fuel rest2 (ch :: acc)
          | none => parseStringBody fuel rest1 (codeUnitChar n :: acc)
        | none => none
      | _ => none
    else if c.toNat < 0x20 then none
    else parseStringBody fuel rest (c :: acc)

/-- A run of decimal digits: their value, how many there are, and the rest. -/
def parseDigits : List Char → Nat → Nat → Nat × Nat × List Char
  | [], value, count => (value, count, [])
  | c :: rest, value, count =>
    if c.isDigit then parseDigits rest (value * 10 + (c.toNat - '0'.toNat)) (count + 1)
    else (value, count, c :: rest)

/-- The optional exponent part of a JSON number. -/
def parseExponent (cs : List Char) : Option (Int × List Char) :=
  match cs with
  | c :: rest =>
    if c = 'e' ∨ c = 'E' then
      match rest with
      | '-' :: rest1 =>
        match parseDigits rest1 0 0 with
        | (_, 0, _) => none
        | (v, _, rest2) => some (-(v : Int), rest2)
      | '+' :: rest1 =>
        match parseDigits rest1 0 0 with
        | (_, 0, _) => none
        | (v, _, rest2) => some ((v : Int), rest2)
      | _ =>
        match parseDigits rest 0 0 with
        | (_, 0, _) => none
        | (v, _, rest2) => some ((v : Int), rest2)
    else some (0, cs)
  | [] => some (0, [])

/-- The digits of a JSON number after its optional sign: an integer part
without a superfluous leading zero, an optional fraction, an optional exponent. -/
def parseUnsigned (cs : List Char) : Option (Nat × Int × List Char) :=
  match parseDigits cs 0 0 with
  | (_, 0, _) => none
  | (intValue, intCount, rest) =>
    if cs.head? = some '0' ∧ intCount ≠ 1 then none
    else
      match rest with
      | '.' :: rest1 =>
        match parseDigits rest1 intValue 0 with
        | (_, 0, _) => none
        | (value, fracCount, rest2) =>
          (parseExponent rest2).map (fun r => (value, r.1 - (fracCount : Int), r.2))
      | _ => (parseExponent rest).map (fun r => (intValue, r.1, r.2))

/-- A JSON number. -/
def parseNumber (cs : List Char) : Option (Json × List Char) :=
  match cs with
  | '-' :: rest =>
    (parseUnsigned rest).map (fun r => (Json.num (-(r.1 : Int)) r.2.1, r.2.2))
  | _ => (parseUnsigned cs).map (fun r => (Json.num (r.1 : Int) r.2.1, r.2.2))

mutual

/-- A JSON value at the front of the text, and the text after it. -/
def parseValue : Nat → List Char → Option (Json × List Char)
  | 0, _ => none
  | fuel + 1, cs =>
    match skipWs cs with
    | 'n' :: 'u' :: 'l' :: 'l' :: rest => some (Json.null, rest)
    | 't' :: 'r' :: 'u' :: 'e' :: rest => some (Json.bool true, rest)
    | 'f' :: 'a' :: 'l' :: 's' :: 'e' :: rest => some (Json.bool false, rest)
    | '"' :: rest =>
      (parseStringBody rest.length.succ rest []).map (fun r => (Json.str r.1, r.2))
    | '[' :: rest =>
      match skipWs rest with
      | ']' :: rest1 => some (Json.arr [], rest1)
      | _ => parseElements fuel rest []
    | '{' :: rest =>
      match skipWs rest with
      | '}' :: rest1 => some (Json.obj [], rest1)
      | _ => parseMembers fuel rest []
    | other => parseNumber other

/-- The elements of a non-empty array after its opening bracket. -/
def parseElements : Nat → List Char → List Json → Option (Json × List Char)
  | 0, _, _ => none
  | fuel + 1, cs, acc =>
    match parseValue fuel cs with
    | none => none
    | some (v, rest) =>
      match skipWs rest with
      | ',' :: rest1 => parseElements fuel rest1 (v :: acc)
      | ']' :: rest1 => some (Json.arr (v :: acc).reverse, rest1)
      | _ => none

/-- The members of a non-empty object after its opening brace; a repeated key
keeps its place and takes the later value. -/
def parseMembers : Nat → List Char → List (String × Json) → Option (Json × List Char)
  | 0, _, _ => none
  | fuel + 1, cs, acc =>
    match skipWs cs with
    | '"' :: rest =>
      match parseStringBody rest.length.succ rest [] with
      | none => none
      | some (key, rest1) =>
        match skipWs rest1 with
        | ':' :: rest2 =>
          match parseValue fuel rest2 with
          | none => none
          | some (v, rest3) =>
            match skipWs rest3 with
            | ',' :: rest4 => parseMembers fuel rest4 (JsObject.setProp acc key v)
            | '}' :: rest4 => some (Json.obj (JsObject.setProp acc key v), rest4)
            | _ => none
        | _ => none
    | _ => none

end

/-- A reference `JSON.parse`: the value of a text that is one JSON value
between optional white space, `none` where `JSON.parse` throws. -/
def jsonParse (text : String) : Option Json :=
  match parseValue (2 * text.length + 2) text.data with
  | some (v, rest) => if skipWs rest = [] then some v else none
  | none => none

/-! ## The message classifier of `ChatPanel` -/

/-- What a message row renders: the interactive quiz on the parsed array, or
the markdown view on a text. -/
inductive Rendering where
  | quiz (quizData : List Json)
  | markdown (text : String)
deriving Repr

/-- The text the classifier hands to the parser:
`content.replace(/```json/g, "").replace(/```/g, "").trim()`. -/
def cleanStr (content : String) : String :=
  jsTrim (removeAll "```" (removeAll "```json" content))

/-- The text of the markdown view, `String(msg.content || " ")`. -/
def markdownText (content : String) : String :=
  if content = "" then " " else content

/-- The guard `Array.isArray(parsedData) && parsedData[0]?.question &&
parsedData[0]?.options`. -/
def looksLikeQuiz : Json → Bool
  | Json.arr items =>
    truthy (optionalProp items.head? "question") &&
    truthy (optionalProp items.head? "options")
  | _ => false

/-- The rendering decision of a message row; `parse` is the platform's
`JSON.parse` (`none` where it throws, which the `try` swallows). -/
def classifyMessage (parse : String → Option Json) (msg : Message) : Rendering :=
  if msg.role = Role.ai then
    match parse (cleanStr msg.content) with
    | some (Json.arr items) =>
      if looksLikeQuiz (Json.arr items) then Rendering.quiz items
      else Rendering.markdown (markdownText msg.content)
    | _ => Rendering.markdown (markdownText msg.content)
  else Rendering.markdown (markdownText msg.content)

/-- Whether `q.options.map(...)` of `InteractiveQuiz` is defined for the item
`q`: `q` is an object whose `options` is an array.  On `null` the property read
throws, on any other item `q.options` has no `map`. -/
def optionsMapDefined : Json → Bool
  | Json.obj fields =>
    match JsObject.getProp fields "options" with
    | some (Json.arr _) => true
    | _ => false
  | _ => false

/-- Whether `InteractiveQuiz` gets through `quizData.map` over all items. -/
def quizRenders (quizData : List Json) : Bool :=
  quizData.all optionsMapDefined

/-- Whether an item is an object with a `question` string and an `options`
array. -/
def isQuizItem : Json → Bool
  | Json.obj fields =>
    (match JsObject.getProp fields "question" with
      | some (Json.str _) => true
      | _ => false) &&
    (match JsObject.getProp fields "options" with
      | some (Json.arr _) => true
      | _ => false)
  | _ => false

/-- Whether an item is an object that has a `question` field and an `options`
field. -/
def hasQuizFields : Json → Bool
  | Json.obj fields =>
    (JsObject.getProp fields "question").isSome && (JsObject.getProp fields "options").isSome
  | _ => false

/-! ## Submitting a question (`ChatPanel.sendMessage`) -/

/-- What `sendMessage` sees of the component and the store, and the error
toasts it has raised. -/
structure ChatPanelState where
  store : StoreState
  input : String
  loading : Bool
  toasts : List String
deriving DecidableEq, Repr

/-- The body of the `/ask` request; `subject` is absent when undefined. -/
structure AskPayload where
  question : String
  session_id : String
  student_level : String
  explanation_mode : String
  subject : Option String
deriving DecidableEq, Repr

/-- The fields `sendMessage` reads of the answer to `/ask`; `none` stands for a
missing field. -/
structure AskResponse where
  answer : Option String
  message : Option String
  follow_up_suggestions : Option (List String)
deriving DecidableEq, Repr

/-- How the awaited `askQuestion` call ends. -/
inductive AskOutcome where
  | resolved (data : AskResponse)
  | rejected
deriving DecidableEq, Repr

/-- The `a || b` of two optional strings: `a` when truthy (present and not
empty), else `b`. -/
def orElseTruthy (a : Option String) (b : String) : String :=
  match a with
  | some s => if s = "" then b else s
  | none => b

/-- The roadmap that the intent detection installs. -/
def defaultRoadmap : List RoadmapStep :=
  [{ title := "Foundations", duration := "3 Hours",
     description := "Basic core concepts and setup." },
   { title := "Implementation", duration := "5 Hours",
     description := "Hands-on logic and structured building." },
   { title := "Advanced Application", duration := "6 Hours",
     description := "Integrating complex modules and testing." }]

/-- The topic of a roadmap request:
`userText.replace(/learn|roadmap for/gi, "").trim() || "New Subject"`. -/
def roadmapTopic (userText : String) : String :=
  orElseTruthy
    (some (jsTrim (String.mk
      (removeMatches Char.toLower ["learn".data, "roadmap for".data] 0 userText.data))))
    "New Subject"

/-- The intent detection for roadmaps at the head of an accepted submission. -/
def detectRoadmapIntent (userText : String) (store : StoreState) : StoreState :=
  if lowerIncludes userText "learn" || lowerIncludes userText "roadmap" then
    { store with activeTopic := roadmapTopic userText, roadmapData := defaultRoadmap }
  else store

/-- The prompt that wraps the question. -/
def askPrompt (userText : String) : String :=
  "Provide a direct, summarized, and pointwise answer to the following question. \n" ++
  "                 The response must be written ONLY in the same language as the question. \n" ++
  "                 Do not include any links, images, or conversational fillers: \"" ++
  userText ++ "\""

/-- The text that `sendMessage` submits: the override argument when it is a
string, else the trimmed input. -/
def submittedText (overrideText : Option String) (input : String) : String :=
  match overrideText with
  | some text => text
  | none => jsTrim input

/-- The part of `sendMessage` that runs before the `await`: the guard, the
intent detection, the reset of the typed input, the optimistic user message and
`setLoading(true)`; the result carries the request handed to the backend, if
one is made. -/
def sendMessageStart (now : Nat) (overrideText : Option String) (p : ChatPanelState) :
    ChatPanelState × Option AskPayload :=
  let userText := submittedText overrideText p.input
  match p.store.session with
  | none => (p, none)
  | some session =>
    if userText = "" ∨ p.loading = true then (p, none)
    else
      let store1 := detectRoadmapIntent userText p.store
      let input1 := if overrideText.isSome then p.input else ""
      let store2 :=
        addMessage now { role := Role.user, content := userText, suggestions := none } store1
      ({ p with store := store2, input := input1, loading := true },
       some
        { question := askPrompt userText
          session_id := session.session_id
          student_level := p.store.level
          explanation_mode := "quick"
          subject := none })

/-- The part of `sendMessage` that runs when the awaited call ends: the
assistant message on success, the error toast on failure, and
`setLoading(false)` in both cases. -/
def sendMessageFinish (now : Nat) (outcome : AskOutcome) (p : ChatPanelState) :
    ChatPanelState :=
  match outcome with
  | AskOutcome.resolved data =>
    { p with
      store :=
        addMessage now
          { role := Role.ai
            content := orElseTruthy data.answer (orElseTruthy data.message "No data retrieved.")
            suggestions := data.follow_up_suggestions }
          p.store
      loading := false }
  | AskOutcome.rejected =>
    { p with toasts := p.toasts ++ ["Failed to get answer."], loading := false }

/-- A whole `sendMessage` with nothing else happening during the `await`:
`now` and `later` are the clock readings of the two `addMessage` calls. -/
def sendMessage (now later : Nat) (overrideText : Option String) (outcome : AskOutcome)
    (p : ChatPanelState) : ChatPanelState :=
  match sendMessageStart now overrideText p with
  | (p1, some _) => sendMessageFinish later outcome p1
  | (p1, none) => p1

/-! ## Creating a session (`SetupModal.handleStart`) -/

/-- How the awaited `createSession` call ends. -/
inductive CreateOutcome where
  | resolved (data : Session)
  | rejected (message : String)
deriving DecidableEq, Repr

/-- What `handleStart` leaves behind: the store, the arguments of the backend
call if one was made, and the toast it showed. -/
structure StartResult where
  store : StoreState
  request : Option (String × String)
  toast : String
deriving DecidableEq, Repr

/-- The handler `handleStart` of the setup dialog for the typed `name`;
`outcome` is how the backend call ends when it is made. -/
def handleStart (now : Nat) (outcome : CreateOutcome) (name : String) (store : StoreState) :
    StartResult :=
  if jsTrim name = "" then
    { store := store, request := none, toast := "Please enter your name" }
  else
    match outcome with
    | CreateOutcome.resolved data =>
      { store := setSession now data store
        request := some (jsTrim name, "General")
        toast := "Welcome, " ++ data.student_name ++ "!" }
    | CreateOutcome.rejected message =>
      { store := store
        request := some (jsTrim name, "General")
        toast := "Could not connect to backend: " ++ message }

/-! ## Reloading the persisted snapshot -/

/-- Modelled from the spec: the reload step of the `persist` middleware, which
is library code outside the sources.  The stored snapshot is laid over the
freshly created store, `{...initialState, ...persisted}`; writing the snapshot
to storage and reading it back returns the same four fields. -/
def rehydrate (now : Nat) (persisted : Snapshot) : StoreState :=
  { initialState now with
    theme := persisted.theme
    chatHistory := persisted.chatHistory
    level := persisted.level
    mode := persisted.mode }

/-! ## A submission with store calls during the `await` -/

/-- A `sendMessage` during whose `await` the store calls `between` run (the
user opens another chat, deletes one, a new session is installed). -/
def sendMessageWith (now later : Nat) (overrideText : Option String) (between : List StoreOp)
    (outcome : AskOutcome) (p : ChatPanelState) : ChatPanelState :=
  match sendMessageStart now overrideText p with
  | (p1, some _) => sendMessageFinish later outcome { p1 with store := runOps between p1.store }
  | (p1, none) => p1

/-- The reachable-state property of the store: without an active session the
live transcript is empty, and a non-empty live transcript is the stored
transcript of the active session. -/
def LiveIsStored (state : StoreState) : Prop :=
  (state.session = none → state.messages = []) ∧
  (state.messages ≠ [] →
    ∃ S e, state.session = some S ∧
      state.chatHistory.getProp S.session_id = some e ∧ e.messages = state.messages)

/-! ## The voice hook (`useVoice.js`) -/

/-- A speech-synthesis voice. -/
structure Voice where
  name : String
  lang : String
deriving DecidableEq, Repr

/-- What the browser offers: the two speech-recognition constructors, the
speech synthesizer and its voices (`getVoices()`). -/
structure Platform where
  speechRecognition : Bool
  webkitSpeechRecognition : Bool
  speechSynthesis : Bool
  voices : List Voice
deriving DecidableEq, Repr

/-- An utterance handed to `speechSynthesis.speak`; rate and pitch in tenths
(`1.0` and `1.2` in the source). -/
structure Utterance where
  text : String
  voice : Option Voice
  rateTenths : Nat
  pitchTenths : Nat
deriving DecidableEq, Repr

/-- The state of `useVoiceAssistant` together with what it has done so far:
the transcripts passed to `onResult`, the number of recognitions started, the
utterances handed to the synthesizer and the number of `cancel()` calls. -/
structure VoiceHook where
  isListening : Bool
  autoSpeak : Bool
  isSpeaking : Bool
  delivered : List String
  recognitions : Nat
  spoken : List Utterance
  cancels : Nat
deriving DecidableEq, Repr

/-- The hook when the component mounts. -/
def VoiceHook.initial : VoiceHook :=
  { isListening := false, autoSpeak := false, isSpeaking := false,
    delivered := [], recognitions := 0, spoken := [], cancels := 0 }

/-- The three backticks that open and close a fenced code block. -/
def fence : List Char := "```".data

/-- The position of the first fence in the text, if there is one. -/
def findFence : List Char → Option Nat
  | [] => none
  | c :: cs =>
    if startsWithChars id fence (c :: cs) then some 0 else (findFence cs).map (· + 1)

/-- The length of the match of the regular expression for a fenced block
(a fence, as few characters as possible, a fence) at the start of the text. -/
def fenceLength (cs : List Char) : Option Nat :=
  if startsWithChars id fence cs then (findFence (cs.drop 3)).map (· + 6) else none

/-- The scan of `text.replace(/(fence)[\s\S]*?(fence)/g, "")`: matches are taken
leftmost and do not overlap; `skip` counts the characters of the current match
that are still to be dropped. -/
def removeFencesFrom : Nat → List Char → List Char
  | _, [] => []
  | skip + 1, _ :: cs => removeFencesFrom skip cs
  | 0, c :: cs =>
    match fenceLength (c :: cs) with
    | some len => removeFencesFrom (len - 1) cs
    | none => c :: removeFencesFrom 0 cs

/-- The text without its fenced code blocks. -/
def removeFences (cs : List Char) : List Char :=
  removeFencesFrom 0 cs

/-- The scan of `replace(/[*#]/g, "")`. -/
def removeMarkers (cs : List Char) : List Char :=
  cs.filter (fun c => !(c = '*' || c = '#'))

/-- The `cleanText` of `speakText`:
the text without fenced blocks, then without `*` and `#`. -/
def cleanText (text : String) : String :=
  String.mk (removeMarkers (removeFences text.data))

/-- Whether a text has a fenced code block: a fence and, after it, another
fence. -/
def HasFencedBlock (cs : List Char) : Prop :=
  ∃ a b c, cs = a ++ fence ++ b ++ fence ++ c

/-- Whether somewhere in the text a `*` or a `#` stands directly after a
backtick. -/
def markerAfterBacktick : List Char → Bool
  | a :: b :: rest =>
    (decide (a = Char.ofNat 96) && (b = '*' || b = '#')) || markerAfterBacktick (b :: rest)
  | _ => false

/-- The test of `voices.find` in `speakText`. -/
def isPreferredVoice (v : Voice) : Bool :=
  includesChars "Female".data v.name.data ||
  includesChars "Samantha".data v.name.data ||
  includesChars "Zira".data v.name.data ||
  includesChars "Victoria".data v.name.data ||
  includesChars "Google UK English Female".data v.name.data

/-- The voice choice of `speakText`: `voices.find(...) || voices[0]`. -/
def selectVoice (voices : List Voice) : Option Voice :=
  match voices.find? isPreferredVoice with
  | some v => some v
  | none => voices.head?

/-- The hook function `speakText(text)`: nothing without a synthesizer; otherwise the
current speech is cancelled and the utterance is handed over. -/
def speakText (platform : Platform) (text : String) (h : VoiceHook) : VoiceHook :=
  if platform.speechSynthesis then
    { h with
      cancels := h.cancels + 1
      spoken := h.spoken ++
        [{ text := cleanText text, voice := selectVoice platform.voices,
           rateTenths := 10, pitchTenths := 12 }] }
  else h

/-- The hook function `startListening(onResult)`: nothing without a recognition
constructor; otherwise a recognition is set up and started. -/
def startListening (platform : Platform) (h : VoiceHook) : VoiceHook :=
  if platform.speechRecognition || platform.webkitSpeechRecognition then
    { h with recognitions := h.recognitions + 1 }
  else h

/-- The hook function `stopSpeaking()`. -/
def stopSpeaking (platform : Platform) (h : VoiceHook) : VoiceHook :=
  if platform.speechSynthesis then
    { h with cancels := h.cancels + 1, isSpeaking := false }
  else h

/-- The handler `recognition.onresult`: `event.results[0][0].transcript` goes
to `onResult`, then `setAutoSpeak(true)`; `results` lists the alternatives of
each result.  Reading a missing first alternative throws before either. -/
def onRecognitionResult (results : List (List String)) (h : VoiceHook) : VoiceHook :=
  match results with
  | (transcript :: _) :: _ =>
    { h with delivered := h.delivered ++ [transcript], autoSpeak := true }
  | _ => h

/-- A call of the hook or an event the browser raises on an object the hook
has set up. -/
inductive VoiceEvent where
  | startListening
  | recognitionStart
  | recognitionResult (results : List (List String))
  | recognitionEnd
  | speakText (text : String)
  | utteranceStart
  | utteranceEnd
  | utteranceError
  | stopSpeaking
deriving DecidableEq, Repr

/-- The effect of one event.  The handlers of a recognition exist only once a
recognition has been started, those of an utterance only once one has been
handed to the synthesizer. -/
def VoiceEvent.apply (platform : Platform) : VoiceEvent → VoiceHook → VoiceHook
  | .startListening, h => StudyAI.startListening platform h
  | .recognitionStart, h =>
    if h.recognitions = 0 then h else { h with isListening := true }
  | .recognitionResult results, h =>
    if h.recognitions = 0 then h else onRecognitionResult results h
  | .recognitionEnd, h =>
    if h.recognitions = 0 then h else { h with isListening := false }
  | .speakText text, h => StudyAI.speakText platform text h
  | .utteranceStart, h =>
    if h.spoken = [] then h else { h with isSpeaking := true }
  | .utteranceEnd, h =>
    if h.spoken = [] then h else { h with isSpeaking := false }
  | .utteranceError, h =>
    if h.spoken = [] then h else { h with isSpeaking := false }
  | .stopSpeaking, h => StudyAI.stopSpeaking platform h

/-- The hook after a sequence of events, first event first. -/
def runVoice (platform : Platform) : List VoiceEvent → VoiceHook → VoiceHook
  | [], h => h
  | e :: rest, h => runVoice platform rest (e.apply platform h)

/-- Whether an event belongs to speech recognition (as opposed to synthesis). -/
def VoiceEvent.isRecognition : VoiceEvent → Bool
  | .startListening => true
  | .recognitionStart => true
  | .recognitionResult _ => true
  | .recognitionEnd => true
  | _ => false

/-- The classification the quiz view and the markdown view share: the parsed
array of a quiz, nothing for markdown. -/
def Rendering.quizData? : Rendering → Option (List Json)
  | Rendering.quiz quizData => some quizData
  | Rendering.markdown _ => none

/-- A text wrapped as a whole in a code fence with the given opening line
(the fence alone, or the fence followed by `json`). -/
def wrapInFence (opening : String) (text : String) : String :=
  opening ++ "\n" ++ text ++ "\n```"

/-! ## Sample values -/

/-- A session as the backend creates it. -/
def sessionAva : Session :=
  { session_id := "s1", student_name := "Ava", extra := [("subject", "General")] }

/-- A question typed by the student. -/
def askSummary : Message :=
  { role := Role.user, content := "Summarize the key concepts", suggestions := none }

/-- An answer of the assistant. -/
def replySummary : Message :=
  { role := Role.ai, content := "Three ideas matter.", suggestions := some ["Give an example"] }

/-- A second question. -/
def askQuiz : Message :=
  { role := Role.user, content := "Generate a practice quiz", suggestions := none }

/-- A store in which Ava's session is active and holds one exchange, next to an
older stored chat. -/
def stateAva : StoreState :=
  { initialState 100 with
    session := some sessionAva
    messages := [askSummary, replySummary]
    chatHistory :=
      [("s0", { title := some (toUtf16 "Explain this to a beginner..."), timestamp := some 50,
                messages := [askQuiz] }),
       ("s1", { title := some (toUtf16 "Summarize the key concepts..."), timestamp := some 101,
                messages := [askSummary, replySummary] })] }

/-- The run that installs Ava's session, stores one question, and then installs
a session with the same id again. -/
def reinstallOps : List StoreOp :=
  [StoreOp.setSession 1 sessionAva, StoreOp.addMessage 2 askSummary,
   StoreOp.setSession 3 sessionAva]

/-- The run that creates Ava's session, stores an exchange, opens the stored
chat again and deletes an unrelated id. -/
def freshOps : List StoreOp :=
  [StoreOp.setSession 1 sessionAva, StoreOp.addMessage 2 askSummary,
   StoreOp.addMessage 3 replySummary, StoreOp.loadChat "s1", StoreOp.deleteChat "zz"]

/-- A store with a freshly created session and nothing stored yet. -/
def stateJustCreated : StoreState :=
  setSession 5 sessionAva (initialState 0)

/-- The chat panel over Ava's store, idle, with nothing typed. -/
def panelAva : ChatPanelState :=
  { store := stateAva, input := "", loading := false, toasts := [] }

/-- The chat panel over the store of a session that was just created. -/
def panelJustCreated : ChatPanelState :=
  { store := stateJustCreated, input := "", loading := false, toasts := [] }

/-- A backend answer with a text and one follow-up suggestion. -/
def answerThreeIdeas : AskResponse :=
  { answer := some "Three ideas matter.", message := none,
    follow_up_suggestions := some ["Give an example"] }

/-- An assistant message carrying a one-question quiz. -/
def quizMessage : Message :=
  { role := Role.ai
    content := "[\x7b\"question\":\"Q\",\"options\":[\"a\",\"b\"]\x7d]"
    suggestions := none }

/-- An assistant message whose text is the JSON of an empty array. -/
def emptyArrayMessage : Message :=
  { role := Role.ai, content := "[]", suggestions := none }

/-- An assistant message whose only quiz item has an empty question. -/
def emptyQuestionMessage : Message :=
  { role := Role.ai
    content := "[\x7b\"question\":\"\",\"options\":[\"a\"]\x7d]"
    suggestions := none }

/-- An assistant message: quiz JSON with a stray fence marker in the middle. -/
def strayFenceMessage : Message :=
  { role := Role.ai
    content := "[\x7b\"question\":\"Q\",``` \"options\":[\"a\"]\x7d]"
    suggestions := none }

/-- An assistant message with an empty text. -/
def emptyTextMessage : Message :=
  { role := Role.ai, content := "", suggestions := none }

/-- An assistant message: a well-formed first quiz item followed by a number. -/
def mixedArrayMessage : Message :=
  { role := Role.ai
    content := "[\x7b\"question\":\"Q\",\"options\":[\"a\"]\x7d,5]"
    suggestions := none }

/-- An assistant message in plain prose. -/
def proseMessage : Message :=
  { role := Role.ai, content := "Three ideas matter.", suggestions := none }

/-- The voices of a desktop browser, in the order `getVoices()` returns them. -/
def desktopVoices : List Voice :=
  [{ name := "Microsoft David", lang := "en-US" },
   { name := "Microsoft Zira", lang := "en-US" },
   { name := "Google UK English Female", lang := "en-GB" }]

/-- A browser with speech recognition (under the `webkit` name) and synthesis. -/
def desktopBrowser : Platform :=
  { speechRecognition := false, webkitSpeechRecognition := true,
    speechSynthesis := true, voices := desktopVoices }

/-- A browser with speech synthesis but no speech recognition. -/
def browserWithoutRecognition : Platform :=
  { speechRecognition := false, webkitSpeechRecognition := false,
    speechSynthesis := true, voices := desktopVoices }

/-- The microphone is opened and recognition starts; while it runs a text is
spoken and its utterance starts. -/
def listenThenSpeak : List VoiceEvent :=
  [VoiceEvent.startListening, VoiceEvent.recognitionStart,
   VoiceEvent.speakText "Three ideas matter.", VoiceEvent.utteranceStart]

/-- A session whose id is the name of a member every object inherits. -/
def sessionConstructor : Session :=
  { session_id := "constructor", student_name := "Eve", extra := [] }

/-- The chat panel over a store in which the session `constructor` was just
created. -/
def panelConstructor : ChatPanelState :=
  { store := setSession 5 sessionConstructor (initialState 0),
    input := "", loading := false, toasts := [] }

/-- The chat panel over a just created session, with a question typed between
white space. -/
def panelTyped : ChatPanelState :=
  { store := stateJustCreated, input := "  Summarize the key concepts \n",
    loading := false, toasts := [] }

/-- A question of 52 characters. -/
def askApplications : Message :=
  { role := Role.user, content := "What are the practical applications of graph theory?",
    suggestions := none }

/-- A message of the letter `a` followed by twenty times U+1F600, a character
of two code units: 41 code units in all. -/
def askEmoji : Message :=
  { role := Role.user,
    content := String.mk ('a' :: List.replicate 20 (Char.ofNat 0x1F600)),
    suggestions := none }

/-! ## Dictionary lemmas -/

namespace JsObject

variable {α : Type}

theorem getProp_setProp_self (obj : JsObject α) (k : String) (v : α) :
    getProp (setProp obj k v) k = some v := by
  induction obj with
  | nil => simp [setProp, getProp]
  | cons p rest ih =>
    obtain ⟨k', v'⟩ := p
    by_cases h : k' = k
    · simp [setProp, getProp, h]
    · simp [setProp, getProp, h, ih]

theorem getProp_setProp_ne (obj : JsObject α) (k k' : String) (v : α) (h : k' ≠ k) :
    getProp (setProp obj k v) k' = getProp obj k' := by
  induction obj with
  | nil => simp [setProp, getProp, Ne.symm h]
  | cons p rest ih =>
    obtain ⟨k0, v0⟩ := p
    by_cases h0 : k0 = k
    · subst h0
      simp [setProp, getProp, Ne.symm h]
    · by_cases h1 : k0 = k'
      · subst h1
        simp [setProp, getProp, h0]
      · simp [setProp, getProp, h0, h1, ih]

theorem getProp_deleteProp_self (obj : JsObject α) (k : String) :
    getProp (deleteProp obj k) k = none := by
  induction obj with
  | nil => simp [deleteProp, getProp]
  | cons p rest ih =>
    obtain ⟨k0, v0⟩ := p
    by_cases h0 : k0 = k
    · simp [deleteProp, h0, ih]
    · simp [deleteProp, getProp, h0, ih]

theorem getProp_deleteProp_ne (obj : JsObject α) (k k' : String) (h : k' ≠ k) :
    getProp (deleteProp obj k) k' = getProp obj k' := by
  induction obj with
  | nil => simp [deleteProp, getProp]
  | cons p rest ih =>
    obtain ⟨k0, v0⟩ := p
    by_cases h0 : k0 = k
    · subst h0
      simp [deleteProp, getProp, Ne.symm h, ih]
    · simp [deleteProp, getProp, h0, ih]

theorem deleteProp_of_getProp_none (obj : JsObject α) (k : String)
    (h : getProp obj k = none) : deleteProp obj k = obj := by
  induction obj with
  | nil => simp [deleteProp]
  | cons p rest ih =>
    obtain ⟨k0, v0⟩ := p
    by_cases h0 : k0 = k
    · simp [getProp, h0] at h
    · simp only [getProp, h0, if_false] at h
      simp [deleteProp, h0, ih h]

theorem deleteProp_deleteProp (obj : JsObject α) (k : String) :
    deleteProp (deleteProp obj k) k = deleteProp obj k :=
  deleteProp_of_getProp_none _ _ (getProp_deleteProp_self obj k)

theorem keys_setProp_of_getProp_some (obj : JsObject α) (k : String) (v e : α)
    (h : getProp obj k = some e) : keys (setProp obj k v) = keys obj := by
  induction obj with
  | nil => simp [getProp] at h
  | cons p rest ih =>
    obtain ⟨k0, v0⟩ := p
    by_cases h0 : k0 = k
    · simp [setProp, keys, h0]
    · simp only [getProp, h0, if_false] at h
      have ih' : List.map Prod.fst (setProp rest k v) = List.map Prod.fst rest := ih h
      simp [setProp, keys, h0, ih']

theorem not_mem_keys_iff (obj : JsObject α) (k : String) :
    k ∉ keys obj ↔ getProp obj k = none := by
  induction obj with
  | nil => simp [keys, getProp]
  | cons p rest ih =>
    obtain ⟨k0, v0⟩ := p
    have ih' : k ∉ List.map Prod.fst rest ↔ getProp rest k = none := ih
    by_cases h0 : k0 = k
    · simp [keys, getProp, h0]
    · have h1 : ¬ k = k0 := fun h => h0 h.symm
      simp only [keys, List.map_cons, List.mem_cons, not_or, getProp, h0, if_false]
      exact ⟨fun h => ih'.mp h.2, fun h => ⟨h1, ih'.mpr h⟩⟩

end JsObject

/-! ## Basic facts about the store actions -/

theorem addMessage_session (now : Nat) (m : Message) (s : StoreState) :
    (addMessage now m s).session = s.session := by
  unfold addMessage
  cases h : s.session <;> simp [h]

theorem addMessage_messages_of_active (now : Nat) (m : Message) (s : StoreState)
    (S : Session) (h : s.session = some S) :
    (addMessage now m s).messages = s.messages ++ [m] := by
  simp [addMessage, h]

theorem storedMessages_addMessage_of_active (now : Nat) (m : Message) (s : StoreState)
    (S : Session) (h : s.session = some S) :
    storedMessages (addMessage now m s) S.session_id = some (s.messages ++ [m]) := by
  simp [addMessage, h, storedMessages, JsObject.getProp_setProp_self]

theorem getProp_addMessage_ne (now : Nat) (m : Message) (s : StoreState)
    (S : Session) (h : s.session = some S) (k : String) (hk : k ≠ S.session_id) :
    (addMessage now m s).chatHistory.getProp k = s.chatHistory.getProp k := by
  simp [addMessage, h, JsObject.getProp_setProp_ne _ _ _ _ hk]

theorem addMessages_spec (calls : List (Nat × Message)) :
    ∀ (s : StoreState) (S : Session), s.session = some S →
      (addMessages calls s).session = some S ∧
      (addMessages calls s).messages = s.messages ++ calls.map Prod.snd ∧
      (calls ≠ [] →
        storedMessages (addMessages calls s) S.session_id
          = some (addMessages calls s).messages) := by
  induction calls with
  | nil => intro s S h; simp [addMessages, h]
  | cons c rest ih =>
    intro s S h
    have hs : (addMessage c.1 c.2 s).session = some S := by
      rw [addMessage_session]; exact h
    have hm := addMessage_messages_of_active c.1 c.2 s S h
    have hst := storedMessages_addMessage_of_active c.1 c.2 s S h
    obtain ⟨i1, i2, i3⟩ := ih (addMessage c.1 c.2 s) S hs
    have hstep : addMessages (c :: rest) s = addMessages rest (addMessage c.1 c.2 s) := rfl
    rw [hstep]
    refine ⟨i1, ?_, ?_⟩
    · rw [i2, hm]; simp
    · intro _
      by_cases hr : rest = []
      · subst hr
        simp only [addMessages, List.foldl_nil]
        rw [hst, hm]
      · exact i3 hr

/-! ## Properties of the store -/

/-- C1: with a session `S` active, `addMessage(m)` puts `m` at the end of the
live transcript and makes the messages stored under `S.session_id` equal to the
new live transcript; so along any run of appends under `S` the session stays
active, the live transcript grows by the appended messages in order, and after
each append the stored transcript equals the live one. -/
theorem addMessage_keeps_stored_equal_live (s : StoreState) (S : Session)
    (m : Message) (now : Nat) (h : s.session = some S) :
    (addMessage now m s).messages = s.messages ++ [m] ∧
    storedMessages (addMessage now m s) S.session_id
      = some ((addMessage now m s).messages) ∧
    ∀ calls : List (Nat × Message),
      (addMessages calls s).session = some S ∧
      (addMessages calls s).messages = s.messages ++ calls.map Prod.snd ∧
      (calls ≠ [] →
        storedMessages (addMessages calls s) S.session_id
          = some (addMessages calls s).messages) := by
  refine ⟨addMessage_messages_of_active now m s S h, ?_, ?_⟩
  · rw [storedMessages_addMessage_of_active now m s S h,
      addMessage_messages_of_active now m s S h]
  · intro calls
    exact addMessages_spec calls s S h

/-- Witness for C1 on Ava's store. -/
theorem addMessage_keeps_stored_equal_live_witness :
    stateAva.session = some sessionAva ∧
    (addMessage 200 askQuiz stateAva).messages = [askSummary, replySummary, askQuiz] ∧
    storedMessages (addMessage 200 askQuiz stateAva) "s1"
      = some [askSummary, replySummary, askQuiz] :=
  ⟨rfl,
   (addMessage_keeps_stored_equal_live stateAva sessionAva askQuiz 200 rfl).1,
   (addMessage_keeps_stored_equal_live stateAva sessionAva askQuiz 200 rfl).2.1⟩

/-! ### The stored transcript follows the live one along fresh runs -/

theorem storedMatchesLive_initial (now : Nat) : StoredMatchesLive (initialState now) := by
  intro S h
  simp [initialState] at h

theorem storedMatchesLive_setSession (now : Nat) (S0 : Session) (s : StoreState)
    (hf : s.chatHistory.getProp S0.session_id = none) :
    StoredMatchesLive (setSession now S0 s) := by
  intro S h
  simp only [setSession, Option.some.injEq] at h
  subst h
  simp [setSession, storedMessages, hf]

theorem storedMatchesLive_addMessage (now : Nat) (m : Message) (s : StoreState) :
    StoredMatchesLive (addMessage now m s) := by
  intro S h
  rw [addMessage_session] at h
  rw [storedMessages_addMessage_of_active now m s S h,
    addMessage_messages_of_active now m s S h]
  rfl

theorem storedMatchesLive_loadChat (sid : String) (s : StoreState)
    (hs : StoredMatchesLive s) : StoredMatchesLive (loadChat sid s) := by
  unfold loadChat
  cases hg : s.chatHistory.getProp sid with
  | none =>
    by_cases hin : sid ∈ inheritedNames
    · intro S h
      simp only [hin, if_true, Option.some.injEq] at h
      subst h
      simp [storedMessages, hg, hin]
    · simpa [hin] using hs
  | some chat =>
    intro S h
    simp only [Option.some.injEq] at h
    subst h
    simp [storedMessages, hg]

theorem storedMatchesLive_deleteChat (sid : String) (s : StoreState)
    (hs : StoredMatchesLive s) : StoredMatchesLive (deleteChat sid s) := by
  intro S h
  cases hsess : s.session with
  | none => simp [deleteChat, hsess] at h
  | some S0 =>
    by_cases hc : S0.session_id = sid
    · simp [deleteChat, hsess, hc] at h
    · simp only [deleteChat, hsess, hc, decide_False, Bool.false_eq_true, if_false,
        Option.some.injEq] at h
      subst h
      have h0 := hs S0 hsess
      simp only [storedMessages] at h0
      simp [deleteChat, hsess, hc, storedMessages,
        JsObject.getProp_deleteProp_ne _ _ _ hc, h0]

theorem storedMatchesLive_clearAllHistory (confirmed : Bool) (s : StoreState)
    (hs : StoredMatchesLive s) : StoredMatchesLive (clearAllHistory confirmed s) := by
  cases confirmed with
  | false => simpa [clearAllHistory] using hs
  | true =>
    intro S h
    simp [clearAllHistory] at h

theorem storedMatchesLive_apply (op : StoreOp) (s : StoreState)
    (hs : StoredMatchesLive s) (hf : op.startsFresh s = true) :
    StoredMatchesLive (op.apply s) := by
  cases op with
  | setSession now S0 =>
    have hnone : s.chatHistory.getProp S0.session_id = none := by
      simpa [StoreOp.startsFresh, Option.isNone_iff_eq_none] using hf
    exact storedMatchesLive_setSession now S0 s hnone
  | addMessage now m => exact storedMatchesLive_addMessage now m s
  | loadChat sid => exact storedMatchesLive_loadChat sid s hs
  | deleteChat sid => exact storedMatchesLive_deleteChat sid s hs
  | clearAllHistory c => exact storedMatchesLive_clearAllHistory c s hs

theorem storedMatchesLive_runOps (ops : List StoreOp) :
    ∀ s : StoreState, StoredMatchesLive s → freshRun ops s = true →
      StoredMatchesLive (runOps ops s) := by
  induction ops with
  | nil => intro s hs _; exact hs
  | cons op rest ih =>
    intro s hs hf
    simp only [freshRun, Bool.and_eq_true] at hf
    exact ih (op.apply s) (storedMatchesLive_apply op s hs hf.1) hf.2

/-- C2, as stated, fails: install Ava's session, store one question, install a
session with the same id again (the live transcript is reset, the stored entry
is not), then append. The entry held the first question and afterwards holds
only the new message. -/
theorem addMessage_after_reinstall_counterexample :
    (runOps reinstallOps (initialState 0)).session = some sessionAva ∧
    storedMessages (runOps reinstallOps (initialState 0)) sessionAva.session_id
      = some [askSummary] ∧
    storedMessages (addMessage 4 askQuiz (runOps reinstallOps (initialState 0)))
      sessionAva.session_id = some [askQuiz] ∧
    storedMessages (addMessage 4 askQuiz (runOps reinstallOps (initialState 0)))
      sessionAva.session_id
      ≠ some ((storedMessages (runOps reinstallOps (initialState 0))
          sessionAva.session_id).getD [] ++ [askQuiz]) := by
  decide

/-- C2, amended: in every state reached from the initial store by the store
actions where each `setSession` installs a session whose id has no stored entry
at that moment, with a session `S` active, `addMessage(m)` makes the messages
stored for `S` equal to the messages stored before (none if there was no entry)
followed by `m`. -/
theorem addMessage_appends_to_stored_of_freshRun (now0 : Nat) (ops : List StoreOp)
    (S : Session) (m : Message) (now : Nat)
    (hf : freshRun ops (initialState now0) = true)
    (h : (runOps ops (initialState now0)).session = some S) :
    storedMessages (addMessage now m (runOps ops (initialState now0))) S.session_id
      = some ((storedMessages (runOps ops (initialState now0)) S.session_id).getD []
          ++ [m]) := by
  have hinv := storedMatchesLive_runOps ops (initialState now0)
    (storedMatchesLive_initial now0) hf
  rw [storedMessages_addMessage_of_active now m _ S h, hinv S h]

/-- Witness for the amended C2: after Ava's exchange is stored and reopened, a
further question lands behind the two stored messages. -/
theorem addMessage_appends_to_stored_of_freshRun_witness :
    freshRun freshOps (initialState 0) = true ∧
    (runOps freshOps (initialState 0)).session
      = some { session_id := "s1", student_name := "User", extra := [] } ∧
    storedMessages (addMessage 9 askQuiz (runOps freshOps (initialState 0))) "s1"
      = some ([askSummary, replySummary] ++ [askQuiz]) :=
  ⟨by decide, by decide,
   addMessage_appends_to_stored_of_freshRun 0 freshOps
     { session_id := "s1", student_name := "User", extra := [] } askQuiz 9
     (by decide) (by decide)⟩

/-! ### Session isolation, deletion, purge, reopening, persistence -/

theorem loadChat_of_getProp_some (sid : String) (s : StoreState) (e : ChatEntry)
    (h : s.chatHistory.getProp sid = some e) :
    loadChat sid s =
      { s with
        messages := e.messages
        session := some { session_id := sid, student_name := "User", extra := [] } } := by
  simp [loadChat, h]

theorem loadChat_of_getProp_none (sid : String) (s : StoreState)
    (h : s.chatHistory.getProp sid = none) (hn : sid ∉ inheritedNames) :
    loadChat sid s = s := by
  simp [loadChat, h, hn]

theorem loadChat_of_inherited (sid : String) (s : StoreState)
    (h : s.chatHistory.getProp sid = none) (hin : sid ∈ inheritedNames) :
    loadChat sid s =
      { s with
        messages := []
        session := some { session_id := sid, student_name := "User", extra := [] } } := by
  simp [loadChat, h, hin]

/-- C3: when `chatHistory` has an entry for `id`, `loadChat(id)` followed by
`addMessage(m)` leaves the entry of every other key as it was (present stays
present and equal, absent stays absent), and the list of keys is the same. -/
theorem loadChat_addMessage_touches_only_id (s : StoreState) (id : String)
    (e : ChatEntry) (m : Message) (now : Nat)
    (h : s.chatHistory.getProp id = some e) :
    (∀ k, k ≠ id →
      (addMessage now m (loadChat id s)).chatHistory.getProp k
        = s.chatHistory.getProp k) ∧
    JsObject.keys (addMessage now m (loadChat id s)).chatHistory
      = JsObject.keys s.chatHistory := by
  rw [loadChat_of_getProp_some id s e h]
  constructor
  · intro k hk
    simp [addMessage, JsObject.getProp_setProp_ne _ _ _ _ hk]
  · simp only [addMessage, h]
    exact JsObject.keys_setProp_of_getProp_some _ _ _ e h

/-- Witness for C3: reopening the older chat of Ava's store and appending to it
leaves Ava's own entry alone. -/
theorem loadChat_addMessage_touches_only_id_witness :
    stateAva.chatHistory.getProp "s0"
      = some { title := some (toUtf16 "Explain this to a beginner..."),
               timestamp := some 50, messages := [askQuiz] } ∧
    (addMessage 300 askSummary (loadChat "s0" stateAva)).chatHistory.getProp "s1"
      = stateAva.chatHistory.getProp "s1" ∧
    JsObject.keys (addMessage 300 askSummary (loadChat "s0" stateAva)).chatHistory
      = ["s0", "s1"] :=
  ⟨by decide,
   (loadChat_addMessage_touches_only_id stateAva "s0" _ askSummary 300 rfl).1 "s1"
     (by decide),
   (loadChat_addMessage_touches_only_id stateAva "s0" _ askSummary 300 rfl).2⟩

/-- C4: `deleteChat(id)` removes the key `id` and leaves the entry of every
other key unchanged; when `id` is the active session's id the session becomes
`null` and the live transcript empty, otherwise both stay as they were. -/
theorem deleteChat_removes_id_and_clears_if_active (s : StoreState) (id : String) :
    id ∉ JsObject.keys (deleteChat id s).chatHistory ∧
    (deleteChat id s).chatHistory.getProp id = none ∧
    (∀ k, k ≠ id →
      (deleteChat id s).chatHistory.getProp k = s.chatHistory.getProp k) ∧
    (s.session.map Session.session_id = some id →
      (deleteChat id s).session = none ∧ (deleteChat id s).messages = []) ∧
    (s.session.map Session.session_id ≠ some id →
      (deleteChat id s).session = s.session ∧
      (deleteChat id s).messages = s.messages) := by
  have hnone : (deleteChat id s).chatHistory.getProp id = none :=
    JsObject.getProp_deleteProp_self s.chatHistory id
  refine ⟨(JsObject.not_mem_keys_iff _ _).mpr hnone, hnone, ?_, ?_, ?_⟩
  · intro k hk
    exact JsObject.getProp_deleteProp_ne s.chatHistory id k hk
  · intro hcur
    cases hs : s.session with
    | none => simp [hs] at hcur
    | some S =>
      have : S.session_id = id := by simpa [hs] using hcur
      simp [deleteChat, hs, this]
  · intro hcur
    cases hs : s.session with
    | none => simp [deleteChat, hs]
    | some S =>
      have : ¬ S.session_id = id := by simpa [hs] using hcur
      simp [deleteChat, hs, this]

/-- C5, as stated, fails: a session that was just created has no entry yet, so
its id is not a key of `chatHistory`, yet `deleteChat` of that id clears the
active session. -/
theorem deleteChat_unknown_active_id_counterexample :
    "s1" ∉ JsObject.keys stateJustCreated.chatHistory ∧
    stateJustCreated.session = some sessionAva ∧
    (deleteChat "s1" stateJustCreated).session = none ∧
    deleteChat "s1" stateJustCreated ≠ stateJustCreated := by
  decide

/-- C5, amended: for an id that is not a key of `chatHistory`, `deleteChat(id)`
leaves `chatHistory` unchanged, and when the id is not the active session's id
either, the whole state (active session and live transcript included) is
unchanged. -/
theorem deleteChat_unknown_id_keeps_history (s : StoreState) (id : String)
    (h : id ∉ JsObject.keys s.chatHistory) :
    (deleteChat id s).chatHistory = s.chatHistory ∧
    (s.session.map Session.session_id ≠ some id → deleteChat id s = s) := by
  have hnone := (JsObject.not_mem_keys_iff _ _).mp h
  have hdel := JsObject.deleteProp_of_getProp_none s.chatHistory id hnone
  refine ⟨hdel, ?_⟩
  intro hcur
  cases s with
  | mk theme session startTime messages history view level mode topic progress roadmap docs =>
    dsimp only at hdel hcur
    cases session with
    | none => simp [deleteChat, hdel]
    | some S =>
      have hne : ¬ S.session_id = id := by simpa using hcur
      simp [deleteChat, hne, hdel]

/-- Witness for the amended C5 on Ava's store and an id nobody uses. -/
theorem deleteChat_unknown_id_keeps_history_witness :
    "zz" ∉ JsObject.keys stateAva.chatHistory ∧
    stateAva.session.map Session.session_id ≠ some "zz" ∧
    deleteChat "zz" stateAva = stateAva :=
  ⟨by decide, by decide,
   (deleteChat_unknown_id_keeps_history stateAva "zz" (by decide)).2 (by decide)⟩

/-- C6: `deleteChat(id)` twice in a row gives the same state as once. -/
theorem deleteChat_idempotent (s : StoreState) (id : String) :
    deleteChat id (deleteChat id s) = deleteChat id s := by
  cases hs : s.session with
  | none => simp [deleteChat, hs, JsObject.deleteProp_deleteProp]
  | some S =>
    by_cases hc : S.session_id = id
    · simp [deleteChat, hs, hc, JsObject.deleteProp_deleteProp]
    · simp [deleteChat, hs, hc, JsObject.deleteProp_deleteProp]

/-- C7: a confirmed `clearAllHistory()` leaves no entry in `chatHistory`, an
empty live transcript and no active session, and a second confirmed call gives
the same state as the first. -/
theorem clearAllHistory_confirmed_empties_and_idempotent (s : StoreState) :
    (clearAllHistory true s).chatHistory = [] ∧
    (clearAllHistory true s).messages = [] ∧
    (clearAllHistory true s).session = none ∧
    clearAllHistory true (clearAllHistory true s) = clearAllHistory true s := by
  simp [clearAllHistory]

/-- C8: a declined `clearAllHistory()` returns the store unchanged, so a call
that changes anything was a confirmed one; a confirmed call purges the history. -/
theorem clearAllHistory_gated_on_confirmation (s : StoreState) :
    clearAllHistory false s = s ∧
    (∀ c, clearAllHistory c s ≠ s → c = true) ∧
    (clearAllHistory true s).chatHistory = [] := by
  refine ⟨by simp [clearAllHistory], ?_, by simp [clearAllHistory]⟩
  intro c hc
  cases c with
  | false => exact absurd (by simp [clearAllHistory]) hc
  | true => rfl

/-- C9 on the code: with an own entry for `id`, `loadChat(id)` makes the stub
the active session and the entry's messages the live transcript, and changes
nothing else; without one it changes nothing when `id` is not an inherited
name; but for an inherited name the read `chatHistory[id]` is truthy, and
`loadChat("constructor")` on Ava's store, which has no such key, replaces her
session by a stub for `constructor` and empties the live transcript. -/
theorem loadChat_inherited_name_installs_stub :
    (∀ (s : StoreState) (id : String),
      (∀ e, s.chatHistory.getProp id = some e →
        loadChat id s =
          { s with
            messages := e.messages
            session := some { session_id := id, student_name := "User", extra := [] } }) ∧
      (s.chatHistory.getProp id = none → id ∉ inheritedNames → loadChat id s = s) ∧
      (s.chatHistory.getProp id = none → id ∈ inheritedNames →
        loadChat id s =
          { s with
            messages := []
            session := some { session_id := id, student_name := "User", extra := [] } })) ∧
    "constructor" ∉ JsObject.keys stateAva.chatHistory ∧
    stateAva.session = some sessionAva ∧
    stateAva.messages = [askSummary, replySummary] ∧
    (loadChat "constructor" stateAva).session
      = some { session_id := "constructor", student_name := "User", extra := [] } ∧
    (loadChat "constructor" stateAva).messages = [] ∧
    loadChat "constructor" stateAva ≠ stateAva := by
  refine ⟨fun s id => ⟨fun e he => loadChat_of_getProp_some id s e he,
    fun h hn => loadChat_of_getProp_none id s h hn,
    fun h hin => loadChat_of_inherited id s h hin⟩, ?_, ?_, ?_, ?_, ?_, ?_⟩ <;> decide

/-- C10: the persisted snapshot consists of the four fields `theme`,
`chatHistory`, `level` and `mode` of the state, and two states that agree on
these four give the same snapshot, whatever their other fields. -/
theorem partialize_only_persisted_fields (s t : StoreState)
    (hTheme : s.theme = t.theme) (hHistory : s.chatHistory = t.chatHistory)
    (hLevel : s.level = t.level) (hMode : s.mode = t.mode) :
    partialize s = partialize t ∧
    partialize s =
      { theme := s.theme, chatHistory := s.chatHistory, level := s.level, mode := s.mode } := by
  simp [partialize, hTheme, hHistory, hLevel, hMode]

/-- Witness for C10: Ava's store and a store with the same persisted fields but
no session, no live transcript, another clock, view, topic, roadmap and
documents. -/
theorem partialize_only_persisted_fields_witness :
    partialize stateAva =
      partialize
        { stateAva with
          session := none
          messages := []
          sessionStartTime := 7
          activeView := "insights"
          activeTopic := "Graphs"
          topicProgress := 40
          roadmapData := [{ title := "Foundations", duration := "3 Hours",
                            description := "Basic core concepts and setup." }]
          documents := [{ doc_id := "d1", filename := "notes.pdf" }] } :=
  (partialize_only_persisted_fields stateAva _ rfl rfl rfl rfl).1

/-! ## Facts about trimming and the submission guard -/

theorem trimChars_eq_nil_iff (cs : List Char) :
    trimChars cs = [] ↔ cs.all isJsWhiteSpace = true := by
  unfold trimChars
  rw [List.reverse_eq_nil_iff, List.dropWhile_eq_nil_iff]
  constructor
  · intro h
    have hnil : cs.dropWhile isJsWhiteSpace = [] := by
      cases hd : cs.dropWhile isJsWhiteSpace with
      | nil => rfl
      | cons c rest =>
        have hc : isJsWhiteSpace c = true :=
          h c (by rw [hd]; simp)
        have hne : cs.dropWhile isJsWhiteSpace ≠ [] := by rw [hd]; simp
        have hhead := List.head_dropWhile_not isJsWhiteSpace cs hne
        simp only [hd, List.head_cons] at hhead
        rw [hc] at hhead
        exact absurd hhead (by simp)
    rw [List.all_eq_true]
    exact List.dropWhile_eq_nil_iff.mp hnil
  · intro h x hx
    rw [List.all_eq_true] at h
    have hx' : x ∈ cs.dropWhile isJsWhiteSpace := List.mem_reverse.mp hx
    exact h x ((List.dropWhile_sublist isJsWhiteSpace).subset hx')

theorem jsTrim_eq_empty_iff (str : String) : jsTrim str = "" ↔ isBlank str = true := by
  unfold jsTrim isBlank
  rw [← trimChars_eq_nil_iff]
  constructor
  · intro h
    have := congrArg String.data h
    simpa using this
  · intro h
    rw [h]

theorem ne_empty_of_not_blank (str : String) (h : isBlank str = false) : str ≠ "" := by
  intro he
  subst he
  simp [isBlank] at h

theorem detectRoadmapIntent_session (userText : String) (store : StoreState) :
    (detectRoadmapIntent userText store).session = store.session := by
  unfold detectRoadmapIntent
  split <;> rfl

theorem detectRoadmapIntent_messages (userText : String) (store : StoreState) :
    (detectRoadmapIntent userText store).messages = store.messages := by
  unfold detectRoadmapIntent
  split <;> rfl

theorem detectRoadmapIntent_chatHistory (userText : String) (store : StoreState) :
    (detectRoadmapIntent userText store).chatHistory = store.chatHistory := by
  unfold detectRoadmapIntent
  split <;> rfl

theorem sendMessageStart_of_rejected (now : Nat) (overrideText : Option String)
    (p : ChatPanelState)
    (h : submittedText overrideText p.input = "" ∨ p.store.session = none ∨ p.loading = true) :
    sendMessageStart now overrideText p = (p, none) := by
  unfold sendMessageStart
  cases hs : p.store.session with
  | none => rfl
  | some S =>
    have h' : submittedText overrideText p.input = "" ∨ p.loading = true := by
      rcases h with h | h | h
      · exact Or.inl h
      · rw [hs] at h; exact absurd h (by simp)
      · exact Or.inr h
    simp only [h', if_true]

theorem sendMessageStart_of_accepted (now : Nat) (overrideText : Option String)
    (p : ChatPanelState) (S : Session) (hs : p.store.session = some S)
    (ht : submittedText overrideText p.input ≠ "") (hl : p.loading = false) :
    sendMessageStart now overrideText p =
      ({ p with
          store :=
            addMessage now
              { role := Role.user, content := submittedText overrideText p.input,
                suggestions := none }
              (detectRoadmapIntent (submittedText overrideText p.input) p.store)
          input := if overrideText.isSome then p.input else ""
          loading := true },
       some
        { question := askPrompt (submittedText overrideText p.input)
          session_id := S.session_id
          student_level := p.store.level
          explanation_mode := "quick"
          subject := none }) := by
  unfold sendMessageStart
  simp only [hs]
  have h' : ¬ (submittedText overrideText p.input = "" ∨ p.loading = true) := by
    rw [hl]
    simp [ht]
  simp only [h', if_false]

theorem sendMessage_of_accepted (now later : Nat) (overrideText : Option String)
    (outcome : AskOutcome) (p : ChatPanelState) (S : Session)
    (hs : p.store.session = some S)
    (ht : submittedText overrideText p.input ≠ "") (hl : p.loading = false) :
    sendMessage now later overrideText outcome p =
      sendMessageFinish later outcome (sendMessageStart now overrideText p).1 := by
  unfold sendMessage
  rw [sendMessageStart_of_accepted now overrideText p S hs ht hl]

/-! ## Persistence round trip -/

/-- C11: laying the snapshot of a state over a freshly created store gives
back the `chatHistory`, `theme`, `level` and `mode` of that state, with no
active session and an empty live transcript whatever the state held. -/
theorem rehydrate_partialize_round_trip (s : StoreState) (now : Nat) :
    (rehydrate now (partialize s)).chatHistory = s.chatHistory ∧
    (rehydrate now (partialize s)).theme = s.theme ∧
    (rehydrate now (partialize s)).level = s.level ∧
    (rehydrate now (partialize s)).mode = s.mode ∧
    (rehydrate now (partialize s)).session = none ∧
    (rehydrate now (partialize s)).messages = [] ∧
    partialize (rehydrate now (partialize s)) = partialize s :=
  ⟨rfl, rfl, rfl, rfl, rfl, rfl, rfl⟩

/-! ## The classifier -/

theorem classifyMessage_of_parsed_array (parse : String → Option Json) (msg : Message)
    (items : List Json) (hrole : msg.role = Role.ai)
    (hparse : parse (cleanStr msg.content) = some (Json.arr items)) :
    classifyMessage parse msg =
      if looksLikeQuiz (Json.arr items) then Rendering.quiz items
      else Rendering.markdown (markdownText msg.content) := by
  simp [classifyMessage, hrole, hparse]

/-- C12, as stated, fails on the two inputs the claim names: the JSON of the
empty array and the JSON of an item whose question is the empty string are
arrays of objects with both fields, and both are rendered as markdown. -/
theorem classifyMessage_empty_array_counterexample :
    jsonParse emptyArrayMessage.content = some (Json.arr []) ∧
    ([] : List Json).all hasQuizFields = true ∧
    classifyMessage jsonParse emptyArrayMessage = Rendering.markdown "[]" ∧
    jsonParse emptyQuestionMessage.content
      = some (Json.arr
          [Json.obj [("question", Json.str ""), ("options", Json.arr [Json.str "a"])]]) ∧
    [Json.obj [("question", Json.str ""), ("options", Json.arr [Json.str "a"])]].all
      hasQuizFields = true ∧
    classifyMessage jsonParse emptyQuestionMessage
      = Rendering.markdown emptyQuestionMessage.content :=
  ⟨rfl, rfl, rfl, rfl, rfl, rfl⟩

/-- C12, amended: an assistant message whose text, with the fence markers
removed and trimmed, parses to a non-empty array whose first element has a
truthy `question` and a truthy `options` is rendered as a quiz on the parsed
array. -/
theorem classifyMessage_quiz_of_truthy_first (parse : String → Option Json)
    (msg : Message) (first : Json) (rest : List Json)
    (hrole : msg.role = Role.ai)
    (hparse : parse (cleanStr msg.content) = some (Json.arr (first :: rest)))
    (hq : truthy (optionalProp (some first) "question") = true)
    (ho : truthy (optionalProp (some first) "options") = true) :
    classifyMessage parse msg = Rendering.quiz (first :: rest) := by
  rw [classifyMessage_of_parsed_array parse msg (first :: rest) hrole hparse]
  simp [looksLikeQuiz, hq, ho]

/-- Witness for the amended C12: a one-question quiz, parsed by the reference
parser. -/
theorem classifyMessage_quiz_of_truthy_first_witness :
    classifyMessage jsonParse quizMessage
      = Rendering.quiz
          [Json.obj [("question", Json.str "Q"),
                     ("options", Json.arr [Json.str "a", Json.str "b"])]] :=
  classifyMessage_quiz_of_truthy_first jsonParse quizMessage
    (Json.obj [("question", Json.str "Q"),
               ("options", Json.arr [Json.str "a", Json.str "b"])]) [] rfl rfl rfl rfl

/-- C13, as stated, fails: quiz JSON with a stray fence marker in the middle is
not valid JSON and is not wrapped in a fence, yet it is rendered as a quiz; and
for an empty text the markdown view receives a single space. -/
theorem classifyMessage_stray_fence_counterexample :
    jsonParse strayFenceMessage.content = none ∧
    classifyMessage jsonParse strayFenceMessage
      = Rendering.quiz
          [Json.obj [("question", Json.str "Q"), ("options", Json.arr [Json.str "a"])]] ∧
    classifyMessage jsonParse emptyTextMessage = Rendering.markdown " " :=
  ⟨rfl, rfl, rfl⟩

/-- C13, amended: a message whose text, with every fence marker removed and
trimmed, does not parse to an array that passes the quiz guard is rendered as
markdown, and the markdown view receives the original text unchanged unless the
text is empty. -/
theorem classifyMessage_markdown_of_not_quiz (parse : String → Option Json)
    (msg : Message)
    (h : ∀ items, parse (cleanStr msg.content) = some (Json.arr items) →
      looksLikeQuiz (Json.arr items) = false) :
    classifyMessage parse msg = Rendering.markdown (markdownText msg.content) ∧
    (msg.content ≠ "" → markdownText msg.content = msg.content) := by
  constructor
  · unfold classifyMessage
    split
    · cases hp : parse (cleanStr msg.content) with
      | none => rfl
      | some v =>
        cases v with
        | arr items => simp [h items hp]
        | null => rfl
        | bool b => rfl
        | num m e => rfl
        | str t => rfl
        | obj fields => rfl
    · rfl
  · intro hne
    simp [markdownText, hne]

/-- Witness for the amended C13: a prose answer, which the reference parser
rejects, is handed to the markdown view as it is. -/
theorem classifyMessage_markdown_of_not_quiz_witness :
    classifyMessage jsonParse proseMessage = Rendering.markdown "Three ideas matter." :=
  (classifyMessage_markdown_of_not_quiz jsonParse proseMessage
    (fun items hp => by
      have hnone : jsonParse (cleanStr proseMessage.content) = none := rfl
      rw [hnone] at hp
      exact absurd hp (by simp))).1

/-- C14 on the code: an array whose first item is a well-formed quiz question
and whose second item is the number 5 is rendered as a quiz, although not every
item is a quiz item and `q.options.map` is not defined on the second one. -/
theorem classifyMessage_checks_first_item_only :
    classifyMessage jsonParse mixedArrayMessage
      = Rendering.quiz
          [Json.obj [("question", Json.str "Q"), ("options", Json.arr [Json.str "a"])],
           Json.num 5 0] ∧
    [Json.obj [("question", Json.str "Q"), ("options", Json.arr [Json.str "a"])],
      Json.num 5 0].all isQuizItem = false ∧
    quizRenders
      [Json.obj [("question", Json.str "Q"), ("options", Json.arr [Json.str "a"])],
       Json.num 5 0] = false :=
  ⟨rfl, rfl, rfl⟩

/-! ## Submitting a question -/

theorem sendMessageStart_blank_typed (now : Nat) (p : ChatPanelState)
    (h : isBlank p.input = true) : sendMessageStart now none p = (p, none) :=
  sendMessageStart_of_rejected now none p
    (Or.inl ((jsTrim_eq_empty_iff p.input).mpr h))

theorem sendMessageStart_empty_override (now : Nat) (p : ChatPanelState) :
    sendMessageStart now (some "") p = (p, none) :=
  sendMessageStart_of_rejected now (some "") p (Or.inl rfl)

/-- C15 on the code: a single space passed as the override argument is blank,
yet with a session active and nothing in flight it is submitted: the user
message is appended to the live transcript and to the stored entry, the request
is made and the in-flight flag is set. -/
theorem sendMessageStart_blank_override_is_sent :
    isBlank " " = true ∧
    (sendMessageStart 7 (some " ") panelAva).1.store.messages
      = [askSummary, replySummary,
         { role := Role.user, content := " ", suggestions := none }] ∧
    storedMessages (sendMessageStart 7 (some " ") panelAva).1.store "s1"
      = some [askSummary, replySummary,
              { role := Role.user, content := " ", suggestions := none }] ∧
    (sendMessageStart 7 (some " ") panelAva).2
      = some { question := askPrompt " ", session_id := "s1",
               student_level := "intermediate", explanation_mode := "quick",
               subject := none } ∧
    (sendMessageStart 7 (some " ") panelAva).1.loading = true :=
  ⟨rfl, rfl, rfl, rfl, rfl⟩

/-- C16: while a submission is in flight, or with no active session,
`sendMessage` changes nothing (live transcript, `chatHistory`, in-flight flag,
topic and roadmap included) and makes no request, whatever the text and
however the awaited call would end; and `addMessage` changes nothing when no
session is active. -/
theorem sendMessage_dropped_when_busy_or_no_session (now later : Nat)
    (overrideText : Option String) (outcome : AskOutcome) (p : ChatPanelState)
    (h : p.loading = true ∨ p.store.session = none) :
    sendMessageStart now overrideText p = (p, none) ∧
    sendMessage now later overrideText outcome p = p ∧
    (∀ m, p.store.session = none → addMessage now m p.store = p.store) := by
  have hstart : sendMessageStart now overrideText p = (p, none) :=
    sendMessageStart_of_rejected now overrideText p
      (h.elim (fun hl => Or.inr (Or.inr hl)) (fun hs => Or.inr (Or.inl hs)))
  refine ⟨hstart, ?_, ?_⟩
  · unfold sendMessage
    rw [hstart]
  · intro m hs
    simp [addMessage, hs]

/-- Witness for C16: a second submission while the first is pending. -/
theorem sendMessage_dropped_when_busy_or_no_session_witness :
    sendMessage 7 8 (some "Generate a practice quiz") (AskOutcome.resolved answerThreeIdeas)
      { panelAva with loading := true } = { panelAva with loading := true } :=
  (sendMessage_dropped_when_busy_or_no_session 7 8 (some "Generate a practice quiz")
    (AskOutcome.resolved answerThreeIdeas) { panelAva with loading := true }
    (Or.inl rfl)).2.1

/-- C17, as stated, fails: when the awaited call is rejected, the transcript
and the stored entry end with the user message, no assistant message follows,
and the failure is shown as a toast. -/
theorem sendMessage_rejected_counterexample :
    (sendMessage 7 8 (some "Hi") AskOutcome.rejected panelAva).store.messages
      = [askSummary, replySummary,
         { role := Role.user, content := "Hi", suggestions := none }] ∧
    storedMessages (sendMessage 7 8 (some "Hi") AskOutcome.rejected panelAva).store "s1"
      = some [askSummary, replySummary,
              { role := Role.user, content := "Hi", suggestions := none }] ∧
    (sendMessage 7 8 (some "Hi") AskOutcome.rejected panelAva).toasts
      = ["Failed to get answer."] :=
  ⟨rfl, rfl, rfl⟩

/-- C17, amended: for an accepted submission that nothing interrupts, when the
call succeeds exactly one assistant message (the answer) follows the user
message in the live transcript and in the stored entry; when it fails nothing
follows the user message and an error toast is raised; the in-flight flag is
cleared in both cases. -/
theorem sendMessage_completion (now later : Nat) (overrideText : Option String)
    (p : ChatPanelState) (S : Session) (hs : p.store.session = some S)
    (ht : submittedText overrideText p.input ≠ "") (hl : p.loading = false) :
    (∀ data : AskResponse,
      (sendMessage now later overrideText (AskOutcome.resolved data) p).store.messages
        = p.store.messages ++
          [{ role := Role.user, content := submittedText overrideText p.input,
             suggestions := none },
           { role := Role.ai
             content :=
               orElseTruthy data.answer (orElseTruthy data.message "No data retrieved.")
             suggestions := data.follow_up_suggestions }] ∧
      storedMessages
          (sendMessage now later overrideText (AskOutcome.resolved data) p).store
          S.session_id
        = some (sendMessage now later overrideText (AskOutcome.resolved data) p).store.messages ∧
      (sendMessage now later overrideText (AskOutcome.resolved data) p).loading = false) ∧
    ((sendMessage now later overrideText AskOutcome.rejected p).store.messages
        = p.store.messages ++
          [{ role := Role.user, content := submittedText overrideText p.input,
             suggestions := none }] ∧
      storedMessages (sendMessage now later overrideText AskOutcome.rejected p).store
          S.session_id
        = some (sendMessage now later overrideText AskOutcome.rejected p).store.messages ∧
      (sendMessage now later overrideText AskOutcome.rejected p).toasts
        = p.toasts ++ ["Failed to get answer."] ∧
      (sendMessage now later overrideText AskOutcome.rejected p).loading = false) := by
  have hs1 : (detectRoadmapIntent (submittedText overrideText p.input) p.store).session
      = some S := by
    rw [detectRoadmapIntent_session]; exact hs
  have hm1 := addMessage_messages_of_active now
    { role := Role.user, content := submittedText overrideText p.input, suggestions := none }
    _ S hs1
  have hst1 := storedMessages_addMessage_of_active now
    { role := Role.user, content := submittedText overrideText p.input, suggestions := none }
    _ S hs1
  rw [detectRoadmapIntent_messages] at hm1 hst1
  constructor
  · intro data
    rw [sendMessage_of_accepted now later overrideText _ p S hs ht hl,
      sendMessageStart_of_accepted now overrideText p S hs ht hl]
    simp only [sendMessageFinish]
    have hs2 : (addMessage now
        { role := Role.user, content := submittedText overrideText p.input,
          suggestions := none }
        (detectRoadmapIntent (submittedText overrideText p.input) p.store)).session
        = some S := by
      rw [addMessage_session]; exact hs1
    have hm2 := addMessage_messages_of_active later
      { role := Role.ai
        content := orElseTruthy data.answer (orElseTruthy data.message "No data retrieved.")
        suggestions := data.follow_up_suggestions } _ S hs2
    have hst2 := storedMessages_addMessage_of_active later
      { role := Role.ai
        content := orElseTruthy data.answer (orElseTruthy data.message "No data retrieved.")
        suggestions := data.follow_up_suggestions } _ S hs2
    refine ⟨?_, ?_, trivial⟩
    · rw [hm2, hm1]; simp
    · rw [hst2, hm2]
  · rw [sendMessage_of_accepted now later overrideText _ p S hs ht hl,
      sendMessageStart_of_accepted now overrideText p S hs ht hl]
    simp only [sendMessageFinish]
    exact ⟨hm1, by rw [hst1, hm1], trivial, trivial⟩

/-- Witness for the amended C17 on Ava's panel with a successful answer. -/
theorem sendMessage_completion_witness :
    (sendMessage 7 8 (some "Hi") (AskOutcome.resolved answerThreeIdeas) panelAva).store.messages
      = [askSummary, replySummary,
         { role := Role.user, content := "Hi", suggestions := none },
         replySummary] ∧
    (sendMessage 7 8 (some "Hi") AskOutcome.rejected panelAva).loading = false :=
  ⟨((sendMessage_completion 7 8 (some "Hi") panelAva sessionAva rfl (by decide) rfl).1
      answerThreeIdeas).1,
   (sendMessage_completion 7 8 (some "Hi") panelAva sessionAva rfl (by decide) rfl).2.2.2.2⟩

theorem toUtf16_dots : toUtf16 "..." = [46, 46, 46] := by
  decide

theorem getProp_addMessage_of_absent (now : Nat) (m : Message) (s : StoreState)
    (S : Session) (hs : s.session = some S)
    (hh : s.chatHistory.getProp S.session_id = none)
    (hn : S.session_id ∉ inheritedNames) :
    (addMessage now m s).chatHistory.getProp S.session_id
      = some { title := some ((toUtf16 m.content).take 35 ++ [46, 46, 46])
               timestamp := some now
               messages := s.messages ++ [m] } := by
  simp [addMessage, hs, hh, hn, JsObject.getProp_setProp_self, substring0, toUtf16_dots]

theorem getProp_addMessage_of_inherited (now : Nat) (m : Message) (s : StoreState)
    (S : Session) (hs : s.session = some S)
    (hh : s.chatHistory.getProp S.session_id = none)
    (hin : S.session_id ∈ inheritedNames) :
    (addMessage now m s).chatHistory.getProp S.session_id
      = some { title := none, timestamp := none, messages := s.messages ++ [m] } := by
  simp [addMessage, hs, hh, hin, JsObject.getProp_setProp_self]

theorem getProp_addMessage_of_present (now : Nat) (m : Message) (s : StoreState)
    (S : Session) (e : ChatEntry) (hs : s.session = some S)
    (hh : s.chatHistory.getProp S.session_id = some e) :
    (addMessage now m s).chatHistory.getProp S.session_id
      = some { e with messages := s.messages ++ [m] } := by
  simp [addMessage, hs, hh, JsObject.getProp_setProp_self]

theorem orElseTruthy_of_nonempty (a b : String) (h : a ≠ "") :
    orElseTruthy (some a) b = a := by
  simp [orElseTruthy, h]

theorem sendMessage_first_exchange_of_text (now later : Nat) (overrideText : Option String)
    (p : ChatPanelState) (S : Session) (t a : String) (data : AskResponse)
    (hs : p.store.session = some S) (hm : p.store.messages = [])
    (hh : p.store.chatHistory.getProp S.session_id = none)
    (hn : S.session_id ∉ inheritedNames)
    (hl : p.loading = false)
    (htext : submittedText overrideText p.input = t) (ht : t ≠ "")
    (ha : data.answer = some a) (hne : a ≠ "") :
    (sendMessage now later overrideText (AskOutcome.resolved data) p).store.messages
      = [{ role := Role.user, content := t, suggestions := none },
         { role := Role.ai, content := a, suggestions := data.follow_up_suggestions }] ∧
    ((sendMessage now later overrideText (AskOutcome.resolved data) p).store.chatHistory.getProp
        S.session_id).bind ChatEntry.title
      = some ((toUtf16 t).take 35 ++ [46, 46, 46]) := by
  have hte : submittedText overrideText p.input ≠ "" := by
    rw [htext]; exact ht
  have hs1 : (detectRoadmapIntent t p.store).session = some S := by
    rw [detectRoadmapIntent_session]; exact hs
  have hh1 : (detectRoadmapIntent t p.store).chatHistory.getProp S.session_id = none := by
    rw [detectRoadmapIntent_chatHistory]; exact hh
  have hs2 : (addMessage now { role := Role.user, content := t, suggestions := none }
      (detectRoadmapIntent t p.store)).session = some S := by
    rw [addMessage_session]; exact hs1
  have hm1 := addMessage_messages_of_active now
    { role := Role.user, content := t, suggestions := none } _ S hs1
  rw [detectRoadmapIntent_messages, hm, List.nil_append] at hm1
  have he1 := getProp_addMessage_of_absent now
    { role := Role.user, content := t, suggestions := none } _ S hs1 hh1 hn
  rw [sendMessage_of_accepted now later overrideText _ p S hs hte hl,
    sendMessageStart_of_accepted now overrideText p S hs hte hl]
  simp only [sendMessageFinish, htext, ha, orElseTruthy_of_nonempty a _ hne]
  constructor
  · rw [addMessage_messages_of_active later _ _ S hs2, hm1]
    rfl
  · rw [getProp_addMessage_of_present later _ _ S _ hs2 he1]
    rfl

/-- C18, as stated, fails. A question typed between white space is stored
without it, so the content of the user message is not the typed text; and in a
new session whose id is `constructor` the entry that the first message writes
has no title. -/
theorem sendMessage_first_exchange_counterexample :
    isBlank panelTyped.input = false ∧
    (sendMessage 7 8 none (AskOutcome.resolved answerThreeIdeas) panelTyped).store.messages
      = [{ role := Role.user, content := "Summarize the key concepts", suggestions := none },
         replySummary] ∧
    "Summarize the key concepts" ≠ panelTyped.input ∧
    panelConstructor.store.messages = [] ∧
    panelConstructor.store.chatHistory.getProp "constructor" = none ∧
    (sendMessage 7 8 (some "Summarize the key concepts")
        (AskOutcome.resolved answerThreeIdeas) panelConstructor).store.chatHistory.getProp
        "constructor"
      = some { title := none, timestamp := none, messages := [askSummary, replySummary] } := by
  refine ⟨by decide, rfl, by decide, rfl, rfl, rfl⟩

/-- C18, amended: in a freshly created session (empty live transcript, no
stored entry) whose id is not an inherited name, after a non-blank text and a
non-empty answer `a` the live transcript is exactly two messages, the user
message and the assistant message with content `a`.  The content of the user
message is the text `t` itself when `t` is passed as the argument, and the
typed input without its surrounding white space when it is typed.  The title of
the session's entry is the first 35 code units of that content followed by
three dots. -/
theorem sendMessage_first_exchange (now later : Nat) (p : ChatPanelState) (S : Session)
    (a : String) (data : AskResponse)
    (hs : p.store.session = some S) (hm : p.store.messages = [])
    (hh : p.store.chatHistory.getProp S.session_id = none)
    (hn : S.session_id ∉ inheritedNames)
    (hl : p.loading = false)
    (ha : data.answer = some a) (hne : a ≠ "") :
    (∀ t, isBlank t = false →
      (sendMessage now later (some t) (AskOutcome.resolved data) p).store.messages
        = [{ role := Role.user, content := t, suggestions := none },
           { role := Role.ai, content := a, suggestions := data.follow_up_suggestions }] ∧
      ((sendMessage now later (some t) (AskOutcome.resolved data) p).store.chatHistory.getProp
          S.session_id).bind ChatEntry.title
        = some ((toUtf16 t).take 35 ++ [46, 46, 46])) ∧
    (isBlank p.input = false →
      (sendMessage now later none (AskOutcome.resolved data) p).store.messages
        = [{ role := Role.user, content := jsTrim p.input, suggestions := none },
           { role := Role.ai, content := a, suggestions := data.follow_up_suggestions }] ∧
      ((sendMessage now later none (AskOutcome.resolved data) p).store.chatHistory.getProp
          S.session_id).bind ChatEntry.title
        = some ((toUtf16 (jsTrim p.input)).take 35 ++ [46, 46, 46])) := by
  constructor
  · intro t ht
    exact sendMessage_first_exchange_of_text now later (some t) p S t a data hs hm hh hn hl
      rfl (ne_empty_of_not_blank t ht) ha hne
  · intro ht
    have hne' : jsTrim p.input ≠ "" := by
      intro h
      rw [(jsTrim_eq_empty_iff p.input).mp h] at ht
      exact absurd ht (by simp)
    exact sendMessage_first_exchange_of_text now later none p S (jsTrim p.input) a data
      hs hm hh hn hl rfl hne' ha hne

/-- Witness for the amended C18: in Ava's new session the suggestion "Summarize
the key concepts" gives a title that begins with "Summarize the key conce", and
a question of 52 characters gives a title of its first 35 characters and three
dots. -/
theorem sendMessage_first_exchange_witness :
    (sendMessage 7 8 (some "Summarize the key concepts")
        (AskOutcome.resolved answerThreeIdeas) panelJustCreated).store.messages
      = [askSummary, replySummary] ∧
    ((sendMessage 7 8 (some "Summarize the key concepts")
        (AskOutcome.resolved answerThreeIdeas) panelJustCreated).store.chatHistory.getProp
        "s1").bind ChatEntry.title
      = some (toUtf16 "Summarize the key concepts...") ∧
    List.take 23 (toUtf16 "Summarize the key concepts...") = toUtf16 "Summarize the key conce" ∧
    ((sendMessage 7 8 (some "What are the practical applications of graph theory?")
        (AskOutcome.resolved answerThreeIdeas) panelJustCreated).store.chatHistory.getProp
        "s1").bind ChatEntry.title
      = some (toUtf16 "What are the practical applications...") ∧
    (toUtf16 "What are the practical applications of graph theory?").length = 52 ∧
    (toUtf16 "What are the practical applications...").length = 38 ∧
    toUtf16 "Summarize the key concepts..."
      =
        [83, 117, 109, 109, 97, 114, 105, 122, 101, 32, 116, 104, 101, 32, 107, 101, 121, 32,
         99, 111, 110, 99, 101, 112, 116, 115, 46, 46, 46] :=
  ⟨((sendMessage_first_exchange 7 8 panelJustCreated sessionAva "Three ideas matter."
      answerThreeIdeas rfl rfl rfl (by decide) rfl rfl (by decide)).1
      "Summarize the key concepts" (by decide)).1,
   ((sendMessage_first_exchange 7 8 panelJustCreated sessionAva "Three ideas matter."
      answerThreeIdeas rfl rfl rfl (by decide) rfl rfl (by decide)).1
      "Summarize the key concepts" (by decide)).2,
   by decide,
   ((sendMessage_first_exchange 7 8 panelJustCreated sessionAva "Three ideas matter."
      answerThreeIdeas rfl rfl rfl (by decide) rfl rfl (by decide)).1
      "What are the practical applications of graph theory?" (by decide)).2,
   by decide, by decide, by decide⟩

/-! ## Creating a session -/

/-- C19: with a blank name `handleStart` makes no backend call and leaves the
store as it is; when the backend call is rejected the store is left as it is as
well (`setSession` is not called), so a store without an active session still
has none and keeps its live transcript and `chatHistory`. -/
theorem handleStart_keeps_store_on_failure (now : Nat) (name : String)
    (store : StoreState) :
    (isBlank name = true → ∀ outcome,
      (handleStart now outcome name store).request = none ∧
      (handleStart now outcome name store).store = store) ∧
    (∀ message,
      (handleStart now (CreateOutcome.rejected message) name store).store = store ∧
      (store.session = none →
        (handleStart now (CreateOutcome.rejected message) name store).store.session = none)) := by
  constructor
  · intro hb outcome
    have h := (jsTrim_eq_empty_iff name).mpr hb
    simp [handleStart, h]
  · intro message
    have hstore : (handleStart now (CreateOutcome.rejected message) name store).store
        = store := by
      unfold handleStart
      split <;> rfl
    exact ⟨hstore, fun hnone => by rw [hstore]; exact hnone⟩

/-- Witness for C19: a name of two spaces, and a rejected call for Ava. -/
theorem handleStart_keeps_store_on_failure_witness :
    (handleStart 3 (CreateOutcome.resolved sessionAva) "  " (initialState 0)).request = none ∧
    (handleStart 3 (CreateOutcome.resolved sessionAva) "  " (initialState 0)).store
      = initialState 0 ∧
    (handleStart 3 (CreateOutcome.rejected "Network Error") "Ava" (initialState 0)).store.session
      = none :=
  ⟨((handleStart_keeps_store_on_failure 3 "  " (initialState 0)).1 (by decide)
      (CreateOutcome.resolved sessionAva)).1,
   ((handleStart_keeps_store_on_failure 3 "  " (initialState 0)).1 (by decide)
      (CreateOutcome.resolved sessionAva)).2,
   ((handleStart_keeps_store_on_failure 3 "Ava" (initialState 0)).2 "Network Error").2 rfl⟩

/-- C20: `setSession(s)` makes `s` the active session, empties the live
transcript and sets the session start time to the current time; `chatHistory`,
`theme`, `level`, `mode` and every other field stay as they were. -/
theorem setSession_installs_and_keeps_history (now : Nat) (s : Session)
    (state : StoreState) :
    (setSession now s state).session = some s ∧
    (setSession now s state).messages = [] ∧
    (setSession now s state).sessionStartTime = now ∧
    (setSession now s state).chatHistory = state.chatHistory ∧
    (setSession now s state).theme = state.theme ∧
    (setSession now s state).level = state.level ∧
    (setSession now s state).mode = state.mode ∧
    setSession now s state =
      { state with session := some s, messages := [], sessionStartTime := now } :=
  ⟨rfl, rfl, rfl, rfl, rfl, rfl, rfl, rfl⟩

/-! ## The reachable-state property of the store -/

theorem liveIsStored_initial (now : Nat) : LiveIsStored (initialState now) := by
  constructor
  · intro _; rfl
  · intro h; exact absurd rfl h

theorem liveIsStored_setSession (now : Nat) (S0 : Session) (s : StoreState) :
    LiveIsStored (setSession now S0 s) := by
  constructor
  · intro _; rfl
  · intro h; exact absurd rfl h

theorem liveIsStored_addMessage (now : Nat) (m : Message) (s : StoreState)
    (hs : LiveIsStored s) : LiveIsStored (addMessage now m s) := by
  cases hsess : s.session with
  | none =>
    have : addMessage now m s = s := by simp [addMessage, hsess]
    rw [this]; exact hs
  | some S =>
    constructor
    · intro h
      rw [addMessage_session, hsess] at h
      exact absurd h (by simp)
    · intro _
      have hst := storedMessages_addMessage_of_active now m s S hsess
      have hm := addMessage_messages_of_active now m s S hsess
      simp only [storedMessages, Option.map_eq_some'] at hst
      obtain ⟨e, he, hem⟩ := hst
      exact ⟨S, e, by rw [addMessage_session]; exact hsess, he, by rw [hem, hm]⟩

theorem liveIsStored_loadChat (sid : String) (s : StoreState)
    (hs : LiveIsStored s) : LiveIsStored (loadChat sid s) := by
  cases hg : s.chatHistory.getProp sid with
  | none =>
    by_cases hin : sid ∈ inheritedNames
    · rw [loadChat_of_inherited sid s hg hin]
      constructor
      · intro h
        exact absurd h (by simp)
      · intro h
        exact absurd rfl h
    · rw [loadChat_of_getProp_none sid s hg hin]; exact hs
  | some chat =>
    rw [loadChat_of_getProp_some sid s chat hg]
    constructor
    · intro h
      exact absurd h (by simp)
    · intro _
      exact ⟨{ session_id := sid, student_name := "User", extra := [] }, chat, rfl, hg, rfl⟩

theorem liveIsStored_deleteChat (sid : String) (s : StoreState)
    (hs : LiveIsStored s) : LiveIsStored (deleteChat sid s) := by
  cases hsess : s.session with
  | none =>
    have hm := hs.1 hsess
    constructor
    · intro _
      simp [deleteChat, hsess, hm]
    · intro h
      simp [deleteChat, hsess, hm] at h
  | some S =>
    by_cases hc : S.session_id = sid
    · constructor
      · intro _
        simp [deleteChat, hsess, hc]
      · intro h
        simp [deleteChat, hsess, hc] at h
    · constructor
      · intro h
        simp [deleteChat, hsess, hc] at h
      · intro h
        have hmsg : (deleteChat sid s).messages = s.messages := by
          simp [deleteChat, hsess, hc]
        rw [hmsg] at h
        obtain ⟨S1, e, h1, h2, h3⟩ := hs.2 h
        rw [hsess] at h1
        simp only [Option.some.injEq] at h1
        subst h1
        refine ⟨S, e, by simp [deleteChat, hsess, hc], ?_, by rw [hmsg]; exact h3⟩
        have hne : S.session_id ≠ sid := hc
        simpa [deleteChat, JsObject.getProp_deleteProp_ne _ _ _ hne] using h2

theorem liveIsStored_clearAllHistory (confirmed : Bool) (s : StoreState)
    (hs : LiveIsStored s) : LiveIsStored (clearAllHistory confirmed s) := by
  cases confirmed with
  | false => simpa [clearAllHistory] using hs
  | true =>
    constructor
    · intro _; simp [clearAllHistory]
    · intro h; simp [clearAllHistory] at h

theorem liveIsStored_apply (op : StoreOp) (s : StoreState) (hs : LiveIsStored s) :
    LiveIsStored (op.apply s) := by
  cases op with
  | setSession now S0 => exact liveIsStored_setSession now S0 s
  | addMessage now m => exact liveIsStored_addMessage now m s hs
  | loadChat sid => exact liveIsStored_loadChat sid s hs
  | deleteChat sid => exact liveIsStored_deleteChat sid s hs
  | clearAllHistory c => exact liveIsStored_clearAllHistory c s hs

theorem liveIsStored_runOps (ops : List StoreOp) :
    ∀ s : StoreState, LiveIsStored s → LiveIsStored (runOps ops s) := by
  induction ops with
  | nil => intro s hs; exact hs
  | cons op rest ih =>
    intro s hs
    exact ih (op.apply s) (liveIsStored_apply op s hs)

/-- C29: in every state reached from the initial store by any sequence of
`setSession`, `addMessage`, `loadChat`, `deleteChat` and `clearAllHistory`
calls, the live transcript is empty when no session is active, and a non-empty
live transcript equals the messages of the `chatHistory` entry of the active
session. -/
theorem reachable_live_transcript_is_stored (now : Nat) (ops : List StoreOp) :
    ((runOps ops (initialState now)).session = none →
      (runOps ops (initialState now)).messages = []) ∧
    ((runOps ops (initialState now)).messages ≠ [] →
      ∃ S e, (runOps ops (initialState now)).session = some S ∧
        (runOps ops (initialState now)).chatHistory.getProp S.session_id = some e ∧
        e.messages = (runOps ops (initialState now)).messages) :=
  liveIsStored_runOps ops (initialState now) (liveIsStored_initial now)

/-- C26 on the code.  With a session active, `addMessage` keeps the title and
timestamp of an entry that exists; when it creates the entry and the session id
is not an inherited name, the title is the first 35 code units of the message
content followed by three dots (the length of the content, capped at 35, plus
3, so at most 38) and the timestamp is the current time: a question of 52
characters is cut after 35, and of the letter `a` and twenty characters of two
code units each, the letter and seventeen of them are kept.  But for the
session id `constructor`, which has no entry, the read `chatHistory[sid]` finds
the inherited member, and the entry written has no title and no timestamp. -/
theorem addMessage_title_missing_for_inherited_id :
    (∀ (now : Nat) (m : Message) (s : StoreState) (S : Session), s.session = some S →
      (∀ e0, s.chatHistory.getProp S.session_id = some e0 →
        (addMessage now m s).chatHistory.getProp S.session_id
          = some { title := e0.title, timestamp := e0.timestamp,
                   messages := s.messages ++ [m] }) ∧
      (s.chatHistory.getProp S.session_id = none → S.session_id ∉ inheritedNames →
        (addMessage now m s).chatHistory.getProp S.session_id
          = some { title := some ((toUtf16 m.content).take 35 ++ [46, 46, 46])
                   timestamp := some now
                   messages := s.messages ++ [m] } ∧
        ((toUtf16 m.content).take 35 ++ [46, 46, 46]).length
          = min 35 (toUtf16 m.content).length + 3 ∧
        ((toUtf16 m.content).take 35 ++ [46, 46, 46]).length ≤ 38) ∧
      (s.chatHistory.getProp S.session_id = none → S.session_id ∈ inheritedNames →
        (addMessage now m s).chatHistory.getProp S.session_id
          = some { title := none, timestamp := none, messages := s.messages ++ [m] })) ∧
    (addMessage 9 askApplications stateJustCreated).chatHistory.getProp "s1"
      = some { title := some (toUtf16 "What are the practical applications...")
               timestamp := some 9
               messages := [askApplications] } ∧
    (toUtf16 askEmoji.content).length = 41 ∧
    toUtf16 (String.mk ['a', Char.ofNat 0x1F600]) = [97, 55357, 56832] ∧
    (addMessage 9 askEmoji stateJustCreated).chatHistory.getProp "s1"
      = some { title := some (toUtf16
                 (String.mk ('a' :: List.replicate 17 (Char.ofNat 0x1F600)) ++ "..."))
               timestamp := some 9
               messages := [askEmoji] } ∧
    panelConstructor.store.session = some sessionConstructor ∧
    panelConstructor.store.chatHistory.getProp "constructor" = none ∧
    (addMessage 9 askSummary panelConstructor.store).chatHistory.getProp "constructor"
      = some { title := none, timestamp := none, messages := [askSummary] } := by
  refine ⟨?_, by decide, by decide, by decide, by decide, by decide, by decide, by decide⟩
  intro now m s S hs
  refine ⟨?_, ?_, ?_⟩
  · intro e0 hh
    exact getProp_addMessage_of_present now m s S e0 hs hh
  · intro hh hn
    refine ⟨getProp_addMessage_of_absent now m s S hs hh hn, ?_, ?_⟩
    · simp [List.length_take]
    · simp only [List.length_append, List.length_take, List.length_cons, List.length_nil]
      omega
  · intro hh hin
    exact getProp_addMessage_of_inherited now m s S hs hh hin

/-- C28 on the code: with the response mode `quiz` selected in the store, the
request of an accepted submission carries the session id and the level of the
store, but the explanation mode `quick`. -/
theorem sendMessageStart_mode_is_always_quick :
    ({ panelAva with store := { stateAva with mode := "quiz" } } : ChatPanelState).store.mode
      = "quiz" ∧
    (sendMessageStart 7 (some "Hi")
        { panelAva with store := { stateAva with mode := "quiz" } }).2
      = some { question := askPrompt "Hi", session_id := "s1",
               student_level := "intermediate", explanation_mode := "quick",
               subject := none } :=
  ⟨rfl, rfl⟩

/-! ## A reply that arrives after the session has changed -/

theorem sendMessageWith_of_accepted (now later : Nat) (overrideText : Option String)
    (between : List StoreOp) (outcome : AskOutcome) (p : ChatPanelState) (S : Session)
    (hs : p.store.session = some S)
    (ht : submittedText overrideText p.input ≠ "") (hl : p.loading = false) :
    sendMessageWith now later overrideText between outcome p =
      sendMessageFinish later outcome
        { (sendMessageStart now overrideText p).1 with
          store := runOps between (sendMessageStart now overrideText p).1.store } := by
  unfold sendMessageWith
  rw [sendMessageStart_of_accepted now overrideText p S hs ht hl]

theorem sendMessageStart_store_of_accepted (now : Nat) (overrideText : Option String)
    (p : ChatPanelState) (S : Session) (hs : p.store.session = some S)
    (ht : submittedText overrideText p.input ≠ "") (hl : p.loading = false) :
    (sendMessageStart now overrideText p).1.store =
      addMessage now
        { role := Role.user, content := submittedText overrideText p.input,
          suggestions := none }
        (detectRoadmapIntent (submittedText overrideText p.input) p.store) := by
  rw [sendMessageStart_of_accepted now overrideText p S hs ht hl]

/-- C30: the reply of an accepted submission in session `A` goes to the session
that is active when the call completes.  After the submission the entry of `A`
holds the earlier transcript and the user message.  If a chat `B` other than `A`
is opened meanwhile (`loadChat`), or a session `B` with another id is installed
(`setSession`), the reply is appended to the live transcript of `B` and to the
entry of `B`, and the entry of `A` stays as the submission left it.  If the
session is cleared meanwhile (`deleteChat` of `A`, or a confirmed
`clearAllHistory`), the completion changes nothing in the store. -/
theorem sendMessageWith_reply_follows_active_session (now later : Nat)
    (overrideText : Option String) (data : AskResponse) (p : ChatPanelState)
    (A : Session) (hs : p.store.session = some A)
    (ht : submittedText overrideText p.input ≠ "") (hl : p.loading = false) :
    storedMessages (sendMessageStart now overrideText p).1.store A.session_id
      = some (p.store.messages ++
          [{ role := Role.user, content := submittedText overrideText p.input,
             suggestions := none }]) ∧
    (∀ bid eB, bid ≠ A.session_id → p.store.chatHistory.getProp bid = some eB →
      (sendMessageWith now later overrideText [StoreOp.loadChat bid]
          (AskOutcome.resolved data) p).store.messages
        = eB.messages ++
          [{ role := Role.ai
             content :=
               orElseTruthy data.answer (orElseTruthy data.message "No data retrieved.")
             suggestions := data.follow_up_suggestions }] ∧
      storedMessages (sendMessageWith now later overrideText [StoreOp.loadChat bid]
          (AskOutcome.resolved data) p).store bid
        = some (sendMessageWith now later overrideText [StoreOp.loadChat bid]
            (AskOutcome.resolved data) p).store.messages ∧
      (sendMessageWith now later overrideText [StoreOp.loadChat bid]
          (AskOutcome.resolved data) p).store.chatHistory.getProp A.session_id
        = (sendMessageStart now overrideText p).1.store.chatHistory.getProp A.session_id) ∧
    (∀ t B, B.session_id ≠ A.session_id →
      (sendMessageWith now later overrideText [StoreOp.setSession t B]
          (AskOutcome.resolved data) p).store.messages
        = [{ role := Role.ai
             content :=
               orElseTruthy data.answer (orElseTruthy data.message "No data retrieved.")
             suggestions := data.follow_up_suggestions }] ∧
      storedMessages (sendMessageWith now later overrideText [StoreOp.setSession t B]
          (AskOutcome.resolved data) p).store B.session_id
        = some (sendMessageWith now later overrideText [StoreOp.setSession t B]
            (AskOutcome.resolved data) p).store.messages ∧
      (sendMessageWith now later overrideText [StoreOp.setSession t B]
          (AskOutcome.resolved data) p).store.chatHistory.getProp A.session_id
        = (sendMessageStart now overrideText p).1.store.chatHistory.getProp A.session_id) ∧
    (sendMessageWith now later overrideText [StoreOp.deleteChat A.session_id]
        (AskOutcome.resolved data) p).store
      = deleteChat A.session_id (sendMessageStart now overrideText p).1.store ∧
    (sendMessageWith now later overrideText [StoreOp.clearAllHistory true]
        (AskOutcome.resolved data) p).store
      = clearAllHistory true (sendMessageStart now overrideText p).1.store := by
  have hstore := sendMessageStart_store_of_accepted now overrideText p A hs ht hl
  have hs1 : (detectRoadmapIntent (submittedText overrideText p.input) p.store).session
      = some A := by
    rw [detectRoadmapIntent_session]; exact hs
  have hsess1 : (sendMessageStart now overrideText p).1.store.session = some A := by
    rw [hstore, addMessage_session]; exact hs1
  refine ⟨?_, ?_, ?_, ?_, ?_⟩
  · rw [hstore, storedMessages_addMessage_of_active now _ _ A hs1,
      detectRoadmapIntent_messages]
  · intro bid eB hne hB
    have hB1 : (sendMessageStart now overrideText p).1.store.chatHistory.getProp bid
        = some eB := by
      rw [hstore, getProp_addMessage_ne now _ _ A hs1 bid hne,
        detectRoadmapIntent_chatHistory]
      exact hB
    rw [sendMessageWith_of_accepted now later overrideText _ _ p A hs ht hl]
    simp only [sendMessageFinish, runOps, StoreOp.apply]
    rw [loadChat_of_getProp_some bid _ eB hB1]
    refine ⟨?_, ?_, ?_⟩
    · rw [addMessage_messages_of_active later _ _
        { session_id := bid, student_name := "User", extra := [] } rfl]
    · rw [storedMessages_addMessage_of_active later _ _
          { session_id := bid, student_name := "User", extra := [] } rfl,
        addMessage_messages_of_active later _ _
          { session_id := bid, student_name := "User", extra := [] } rfl]
    · exact getProp_addMessage_ne later _ _
        { session_id := bid, student_name := "User", extra := [] } rfl A.session_id
        (fun h => hne h.symm)
  · intro t B hne
    rw [sendMessageWith_of_accepted now later overrideText _ _ p A hs ht hl]
    simp only [sendMessageFinish, runOps, StoreOp.apply]
    refine ⟨?_, ?_, ?_⟩
    · rw [addMessage_messages_of_active later _ _ B rfl]
      rfl
    · rw [storedMessages_addMessage_of_active later _ _ B rfl,
        addMessage_messages_of_active later _ _ B rfl]
    · exact getProp_addMessage_ne later _ _ B rfl A.session_id (fun h => hne h.symm)
  · rw [sendMessageWith_of_accepted now later overrideText _ _ p A hs ht hl]
    simp only [sendMessageFinish, runOps, StoreOp.apply]
    have hnone : (deleteChat A.session_id
        (sendMessageStart now overrideText p).1.store).session = none := by
      simp [deleteChat, hsess1]
    simp [addMessage, hnone]
  · rw [sendMessageWith_of_accepted now later overrideText _ _ p A hs ht hl]
    simp only [sendMessageFinish, runOps, StoreOp.apply]
    simp [addMessage, clearAllHistory]

/-- Witness for C30: Ava asks, opens the older chat while the call is pending,
and the answer lands in that chat; her own entry ends with her question. -/
theorem sendMessageWith_reply_follows_active_session_witness :
    (sendMessageWith 7 8 (some "Hi") [StoreOp.loadChat "s0"]
        (AskOutcome.resolved answerThreeIdeas) panelAva).store.messages
      = [askQuiz, replySummary] ∧
    storedMessages (sendMessageStart 7 (some "Hi") panelAva).1.store "s1"
      = some [askSummary, replySummary,
              { role := Role.user, content := "Hi", suggestions := none }] :=
  ⟨((sendMessageWith_reply_follows_active_session 7 8 (some "Hi") answerThreeIdeas panelAva
      sessionAva rfl (by decide) rfl).2.1 "s0"
      { title := some (toUtf16 "Explain this to a beginner..."), timestamp := some 50,
        messages := [askQuiz] }
      (by decide) rfl).1,
   (sendMessageWith_reply_follows_active_session 7 8 (some "Hi") answerThreeIdeas panelAva
      sessionAva rfl (by decide) rfl).1⟩

/-! ## The voice hook -/

theorem recognition_event_frame (platform : Platform) (e : VoiceEvent) (h : VoiceHook)
    (he : e.isRecognition = true) :
    (e.apply platform h).isSpeaking = h.isSpeaking ∧
    (e.apply platform h).spoken = h.spoken ∧
    (e.apply platform h).cancels = h.cancels := by
  cases e with
  | startListening =>
    simp only [VoiceEvent.apply, startListening]
    split <;> exact ⟨rfl, rfl, rfl⟩
  | recognitionStart =>
    simp only [VoiceEvent.apply]
    split <;> exact ⟨rfl, rfl, rfl⟩
  | recognitionResult results =>
    simp only [VoiceEvent.apply, onRecognitionResult]
    split
    · exact ⟨rfl, rfl, rfl⟩
    · split <;> exact ⟨rfl, rfl, rfl⟩
  | recognitionEnd =>
    simp only [VoiceEvent.apply]
    split <;> exact ⟨rfl, rfl, rfl⟩
  | speakText text => simp [VoiceEvent.isRecognition] at he
  | utteranceStart => simp [VoiceEvent.isRecognition] at he
  | utteranceEnd => simp [VoiceEvent.isRecognition] at he
  | utteranceError => simp [VoiceEvent.isRecognition] at he
  | stopSpeaking => simp [VoiceEvent.isRecognition] at he

theorem synthesis_event_frame (platform : Platform) (e : VoiceEvent) (h : VoiceHook)
    (he : e.isRecognition = false) :
    (e.apply platform h).isListening = h.isListening ∧
    (e.apply platform h).autoSpeak = h.autoSpeak ∧
    (e.apply platform h).delivered = h.delivered ∧
    (e.apply platform h).recognitions = h.recognitions := by
  cases e with
  | startListening => simp [VoiceEvent.isRecognition] at he
  | recognitionStart => simp [VoiceEvent.isRecognition] at he
  | recognitionResult results => simp [VoiceEvent.isRecognition] at he
  | recognitionEnd => simp [VoiceEvent.isRecognition] at he
  | speakText text =>
    simp only [VoiceEvent.apply, speakText]
    split <;> exact ⟨rfl, rfl, rfl, rfl⟩
  | utteranceStart =>
    simp only [VoiceEvent.apply]
    split <;> exact ⟨rfl, rfl, rfl, rfl⟩
  | utteranceEnd =>
    simp only [VoiceEvent.apply]
    split <;> exact ⟨rfl, rfl, rfl, rfl⟩
  | utteranceError =>
    simp only [VoiceEvent.apply]
    split <;> exact ⟨rfl, rfl, rfl, rfl⟩
  | stopSpeaking =>
    simp only [VoiceEvent.apply, stopSpeaking]
    split <;> exact ⟨rfl, rfl, rfl, rfl⟩

theorem recognition_event_congr (platform : Platform) (e : VoiceEvent) (h k : VoiceHook)
    (he : e.isRecognition = true)
    (h1 : h.isListening = k.isListening) (h2 : h.autoSpeak = k.autoSpeak)
    (h3 : h.delivered = k.delivered) (h4 : h.recognitions = k.recognitions) :
    (e.apply platform h).isListening = (e.apply platform k).isListening ∧
    (e.apply platform h).autoSpeak = (e.apply platform k).autoSpeak ∧
    (e.apply platform h).delivered = (e.apply platform k).delivered ∧
    (e.apply platform h).recognitions = (e.apply platform k).recognitions := by
  cases e with
  | startListening =>
    simp only [VoiceEvent.apply, startListening]
    split <;> simp [h1, h2, h3, h4]
  | recognitionStart =>
    simp only [VoiceEvent.apply, h4]
    split <;> simp [h1, h2, h3, h4]
  | recognitionResult results =>
    simp only [VoiceEvent.apply, onRecognitionResult, h4]
    split
    · simp [h1, h2, h3, h4]
    · split <;> simp [h1, h2, h3, h4]
  | recognitionEnd =>
    simp only [VoiceEvent.apply, h4]
    split <;> simp [h1, h2, h3, h4]
  | speakText text => simp [VoiceEvent.isRecognition] at he
  | utteranceStart => simp [VoiceEvent.isRecognition] at he
  | utteranceEnd => simp [VoiceEvent.isRecognition] at he
  | utteranceError => simp [VoiceEvent.isRecognition] at he
  | stopSpeaking => simp [VoiceEvent.isRecognition] at he

theorem synthesis_event_congr (platform : Platform) (e : VoiceEvent) (h k : VoiceHook)
    (he : e.isRecognition = false)
    (h1 : h.isSpeaking = k.isSpeaking) (h2 : h.spoken = k.spoken)
    (h3 : h.cancels = k.cancels) :
    (e.apply platform h).isSpeaking = (e.apply platform k).isSpeaking ∧
    (e.apply platform h).spoken = (e.apply platform k).spoken ∧
    (e.apply platform h).cancels = (e.apply platform k).cancels := by
  cases e with
  | startListening => simp [VoiceEvent.isRecognition] at he
  | recognitionStart => simp [VoiceEvent.isRecognition] at he
  | recognitionResult results => simp [VoiceEvent.isRecognition] at he
  | recognitionEnd => simp [VoiceEvent.isRecognition] at he
  | speakText text =>
    simp only [VoiceEvent.apply, speakText]
    split <;> simp [h1, h2, h3]
  | utteranceStart =>
    simp only [VoiceEvent.apply, h2]
    split <;> simp [h1, h2, h3]
  | utteranceEnd =>
    simp only [VoiceEvent.apply, h2]
    split <;> simp [h1, h2, h3]
  | utteranceError =>
    simp only [VoiceEvent.apply, h2]
    split <;> simp [h1, h2, h3]
  | stopSpeaking =>
    simp only [VoiceEvent.apply, stopSpeaking]
    split <;> simp [h1, h2, h3]

theorem runVoice_recognition_side (platform : Platform) (events : List VoiceEvent) :
    ∀ h k : VoiceHook, h.isListening = k.isListening → h.autoSpeak = k.autoSpeak →
      h.delivered = k.delivered → h.recognitions = k.recognitions →
      (runVoice platform events h).isListening
        = (runVoice platform (events.filter VoiceEvent.isRecognition) k).isListening := by
  induction events with
  | nil => intro h k h1 _ _ _; exact h1
  | cons e rest ih =>
    intro h k h1 h2 h3 h4
    cases he : e.isRecognition with
    | true =>
      simp only [List.filter_cons, he, if_true, runVoice]
      obtain ⟨c1, c2, c3, c4⟩ := recognition_event_congr platform e h k he h1 h2 h3 h4
      exact ih _ _ c1 c2 c3 c4
    | false =>
      simp only [List.filter_cons, he, Bool.false_eq_true, if_false, runVoice]
      obtain ⟨f1, f2, f3, f4⟩ := synthesis_event_frame platform e h he
      exact ih _ _ (f1.trans h1) (f2.trans h2) (f3.trans h3) (f4.trans h4)

theorem runVoice_synthesis_side (platform : Platform) (events : List VoiceEvent) :
    ∀ h k : VoiceHook, h.isSpeaking = k.isSpeaking → h.spoken = k.spoken →
      h.cancels = k.cancels →
      (runVoice platform events h).isSpeaking
        = (runVoice platform (events.filter (fun e => !e.isRecognition)) k).isSpeaking := by
  induction events with
  | nil => intro h k h1 _ _; exact h1
  | cons e rest ih =>
    intro h k h1 h2 h3
    cases he : e.isRecognition with
    | true =>
      simp only [List.filter_cons, he, Bool.not_true, Bool.false_eq_true, if_false, runVoice]
      obtain ⟨f1, f2, f3⟩ := recognition_event_frame platform e h he
      exact ih _ _ (f1.trans h1) (f2.trans h2) (f3.trans h3)
    | false =>
      simp only [List.filter_cons, he, Bool.not_false, if_true, runVoice]
      obtain ⟨c1, c2, c3⟩ := synthesis_event_congr platform e h k he h1 h2 h3
      exact ih _ _ c1 c2 c3

/-- C21, as stated, fails: the microphone is opened and recognition starts,
then a text is spoken and its utterance starts while recognition is still
running; both flags are true. -/
theorem runVoice_listening_and_speaking_counterexample :
    (runVoice desktopBrowser listenThenSpeak VoiceHook.initial).isListening = true ∧
    (runVoice desktopBrowser listenThenSpeak VoiceHook.initial).isSpeaking = true := by
  decide

/-- C21, amended: after any run of events from the initial hook, `isListening`
has the value it has after the recognition events of the run alone, and
`isSpeaking` the value it has after the synthesis events alone: neither side
reads or writes the flag of the other. -/
theorem runVoice_flags_independent (platform : Platform) (events : List VoiceEvent) :
    (runVoice platform events VoiceHook.initial).isListening
      = (runVoice platform (events.filter VoiceEvent.isRecognition)
          VoiceHook.initial).isListening ∧
    (runVoice platform events VoiceHook.initial).isSpeaking
      = (runVoice platform (events.filter (fun e => !e.isRecognition))
          VoiceHook.initial).isSpeaking :=
  ⟨runVoice_recognition_side platform events _ _ rfl rfl rfl rfl,
   runVoice_synthesis_side platform events _ _ rfl rfl rfl⟩

theorem no_recognition_invariant (platform : Platform)
    (h1 : platform.speechRecognition = false)
    (h2 : platform.webkitSpeechRecognition = false) (events : List VoiceEvent) :
    ∀ h : VoiceHook, h.recognitions = 0 →
      (runVoice platform events h).isListening = h.isListening ∧
      (runVoice platform events h).autoSpeak = h.autoSpeak ∧
      (runVoice platform events h).delivered = h.delivered := by
  induction events with
  | nil => intro h _; exact ⟨rfl, rfl, rfl⟩
  | cons e rest ih =>
    intro h hr
    have hstep : (e.apply platform h).recognitions = 0 ∧
        (e.apply platform h).isListening = h.isListening ∧
        (e.apply platform h).autoSpeak = h.autoSpeak ∧
        (e.apply platform h).delivered = h.delivered := by
      cases he : e.isRecognition with
      | false =>
        obtain ⟨f1, f2, f3, f4⟩ := synthesis_event_frame platform e h he
        exact ⟨f4.trans hr, f1, f2, f3⟩
      | true =>
        cases e with
        | startListening => simp [VoiceEvent.apply, startListening, h1, h2, hr]
        | recognitionStart => simp [VoiceEvent.apply, hr]
        | recognitionResult results => simp [VoiceEvent.apply, hr]
        | recognitionEnd => simp [VoiceEvent.apply, hr]
        | speakText text => simp [VoiceEvent.isRecognition] at he
        | utteranceStart => simp [VoiceEvent.isRecognition] at he
        | utteranceEnd => simp [VoiceEvent.isRecognition] at he
        | utteranceError => simp [VoiceEvent.isRecognition] at he
        | stopSpeaking => simp [VoiceEvent.isRecognition] at he
    obtain ⟨s0, s1, s2, s3⟩ := hstep
    obtain ⟨i1, i2, i3⟩ := ih (e.apply platform h) s0
    exact ⟨i1.trans s1, i2.trans s2, i3.trans s3⟩

/-- C22: on a platform with neither `SpeechRecognition` nor
`webkitSpeechRecognition`, `startListening` returns the hook unchanged
(`isListening`, `isSpeaking` and `autoSpeak` included, no recognition started),
and along every run of events from the initial hook `isListening` stays false
and `onResult` is never called. -/
theorem startListening_without_recognition (platform : Platform)
    (h1 : platform.speechRecognition = false)
    (h2 : platform.webkitSpeechRecognition = false) :
    (∀ h : VoiceHook, startListening platform h = h) ∧
    (∀ events : List VoiceEvent,
      (runVoice platform events VoiceHook.initial).isListening = false ∧
      (runVoice platform events VoiceHook.initial).delivered = []) := by
  constructor
  · intro h
    simp [startListening, h1, h2]
  · intro events
    obtain ⟨i1, _, i3⟩ :=
      no_recognition_invariant platform h1 h2 events VoiceHook.initial rfl
    exact ⟨i1, i3⟩

/-- Witness for C22: a browser without recognition; the microphone button and
stray recognition events leave the hook idle. -/
theorem startListening_without_recognition_witness :
    startListening browserWithoutRecognition VoiceHook.initial = VoiceHook.initial ∧
    (runVoice browserWithoutRecognition
        [VoiceEvent.startListening, VoiceEvent.recognitionStart,
         VoiceEvent.recognitionResult [["hello"]]]
        VoiceHook.initial).delivered = [] :=
  ⟨(startListening_without_recognition browserWithoutRecognition rfl rfl).1 VoiceHook.initial,
   ((startListening_without_recognition browserWithoutRecognition rfl rfl).2 _).2⟩

theorem selectVoice_of_first_preferred (pre : List Voice) (v : Voice) (post : List Voice)
    (hv : isPreferredVoice v = true) (hpre : ∀ u ∈ pre, isPreferredVoice u = false) :
    selectVoice (pre ++ v :: post) = some v := by
  have hfind : (pre ++ v :: post).find? isPreferredVoice = some v := by
    induction pre with
    | nil => simp [List.find?, hv]
    | cons u rest ih =>
      have hu : isPreferredVoice u = false := hpre u (by simp)
      have hrest : ∀ w ∈ rest, isPreferredVoice w = false :=
        fun w hw => hpre w (by simp [hw])
      simp only [List.cons_append, List.find?, hu]
      exact ih hrest
  simp [selectVoice, hfind]

theorem selectVoice_of_none_preferred (voices : List Voice)
    (h : ∀ u ∈ voices, isPreferredVoice u = false) :
    selectVoice voices = voices.head? := by
  have hfind : voices.find? isPreferredVoice = none := by
    rw [List.find?_eq_none]
    intro u hu
    simp [h u hu]
  simp [selectVoice, hfind]

/-- C24: the voice that `speakText` sets on the utterance is the first voice,
in list order, whose name contains one of the known substrings; when no voice
qualifies it is the first voice of the list; and for an empty list no voice is
set. -/
theorem speakText_voice_selection (platform : Platform) (text : String) (h : VoiceHook)
    (hsyn : platform.speechSynthesis = true) :
    (speakText platform text h).spoken
      = h.spoken ++
        [{ text := cleanText text, voice := selectVoice platform.voices,
           rateTenths := 10, pitchTenths := 12 }] ∧
    (∀ pre v post, platform.voices = pre ++ v :: post → isPreferredVoice v = true →
      (∀ u ∈ pre, isPreferredVoice u = false) →
      selectVoice platform.voices = some v) ∧
    ((∀ u ∈ platform.voices, isPreferredVoice u = false) →
      selectVoice platform.voices = platform.voices.head?) ∧
    (platform.voices = [] → selectVoice platform.voices = none) := by
  refine ⟨by simp [speakText, hsyn], ?_, ?_, ?_⟩
  · intro pre v post hvoices hv hpre
    rw [hvoices]
    exact selectVoice_of_first_preferred pre v post hv hpre
  · exact selectVoice_of_none_preferred platform.voices
  · intro hnil
    rw [hnil]
    rfl

/-- Witness for C24: of David, Zira and the Google UK female voice, Zira is
chosen. -/
theorem speakText_voice_selection_witness :
    selectVoice desktopBrowser.voices = some { name := "Microsoft Zira", lang := "en-US" } :=
  (speakText_voice_selection desktopBrowser "Hello" VoiceHook.initial rfl).2.1
    [{ name := "Microsoft David", lang := "en-US" }]
    { name := "Microsoft Zira", lang := "en-US" }
    [{ name := "Google UK English Female", lang := "en-GB" }]
    rfl (by decide) (by decide)

/-- C25: once `startListening` has started a recognition, a result event hands
the transcript of the first alternative of the first result to `onResult`, once,
and sets `autoSpeak`; the end event sets `isListening` to false, whatever was
delivered before. -/
theorem recognition_result_then_end (platform : Platform) (h : VoiceHook)
    (transcript : String) (alternatives : List String) (more : List (List String))
    (hrec : 0 < h.recognitions) :
    ((VoiceEvent.recognitionResult ((transcript :: alternatives) :: more)).apply
        platform h).delivered = h.delivered ++ [transcript] ∧
    ((VoiceEvent.recognitionResult ((transcript :: alternatives) :: more)).apply
        platform h).autoSpeak = true ∧
    (VoiceEvent.recognitionEnd.apply platform h).isListening = false ∧
    (VoiceEvent.recognitionEnd.apply platform h).delivered = h.delivered ∧
    (∀ h0 : VoiceHook,
      (platform.speechRecognition || platform.webkitSpeechRecognition) = true →
      0 < (startListening platform h0).recognitions) := by
  have hne : ¬ h.recognitions = 0 := by omega
  refine ⟨by simp [VoiceEvent.apply, onRecognitionResult, hne],
    by simp [VoiceEvent.apply, onRecognitionResult, hne],
    by simp [VoiceEvent.apply, hne], by simp [VoiceEvent.apply, hne], ?_⟩
  intro h0 hp
  simp [startListening, hp]

/-- Witness for C25: one recognition on the desktop browser, with and without a
result before it ends. -/
theorem recognition_result_then_end_witness :
    (runVoice desktopBrowser
        [VoiceEvent.startListening, VoiceEvent.recognitionStart,
         VoiceEvent.recognitionResult [["what is a graph", "what is a giraffe"]],
         VoiceEvent.recognitionEnd]
        VoiceHook.initial).delivered = ["what is a graph"] ∧
    (VoiceEvent.recognitionEnd.apply desktopBrowser
        (runVoice desktopBrowser [VoiceEvent.startListening, VoiceEvent.recognitionStart]
          VoiceHook.initial)).isListening = false :=
  ⟨(recognition_result_then_end desktopBrowser
      (runVoice desktopBrowser [VoiceEvent.startListening, VoiceEvent.recognitionStart]
        VoiceHook.initial)
      "what is a graph" ["what is a giraffe"] [] (by decide)).1,
   (recognition_result_then_end desktopBrowser
      (runVoice desktopBrowser [VoiceEvent.startListening, VoiceEvent.recognitionStart]
        VoiceHook.initial)
      "what is a graph" ["what is a giraffe"] [] (by decide)).2.2.1⟩

/-! ## Scanning for literal patterns -/

theorem startsWithChars_append_sep (norm : Char → Char) (sep : Char) (s : List Char)
    (pat : List Char) (hpat : ∀ p ∈ pat, norm p ≠ norm sep) :
    ∀ l : List Char,
      startsWithChars norm pat (l ++ sep :: s) = startsWithChars norm pat l := by
  induction pat with
  | nil => intro l; cases l <;> rfl
  | cons p ps ih =>
    intro l
    cases l with
    | nil =>
      have hp : norm p ≠ norm sep := hpat p (by simp)
      simp [startsWithChars, hp]
    | cons c cs =>
      have ih' := ih (fun q hq => hpat q (by simp [hq])) cs
      rw [List.cons_append]
      simp only [startsWithChars, ih']

theorem startsWithChars_length (norm : Char → Char) (pat : List Char) :
    ∀ l : List Char, startsWithChars norm pat l = true → pat.length ≤ l.length := by
  induction pat with
  | nil => intro l _; simp
  | cons p ps ih =>
    intro l h
    cases l with
    | nil => simp [startsWithChars] at h
    | cons c cs =>
      simp only [startsWithChars, Bool.and_eq_true] at h
      have := ih cs h.2
      simp only [List.length_cons]
      omega

theorem startsWithChars_self_append (pat rest : List Char) :
    startsWithChars id pat (pat ++ rest) = true := by
  induction pat with
  | nil => cases rest <;> rfl
  | cons p ps ih => simp [startsWithChars, ih]

theorem firstMatch_append_sep (norm : Char → Char) (sep : Char) (s : List Char)
    (pats : List (List Char)) (hpats : ∀ pat ∈ pats, ∀ p ∈ pat, norm p ≠ norm sep)
    (l : List Char) :
    firstMatch norm pats (l ++ sep :: s) = firstMatch norm pats l := by
  unfold firstMatch
  induction pats with
  | nil => rfl
  | cons pat rest ih =>
    have h1 := startsWithChars_append_sep norm sep s pat (hpats pat (by simp)) l
    have h2 := ih (fun q hq => hpats q (by simp [hq]))
    simp only [List.find?, h1, h2]

theorem firstMatch_length (norm : Char → Char) (pats : List (List Char)) (l pat : List Char)
    (h : firstMatch norm pats l = some pat) : pat.length ≤ l.length := by
  unfold firstMatch at h
  have := List.find?_some h
  exact startsWithChars_length norm pat l this

theorem removeMatches_nil (norm : Char → Char) (pats : List (List Char)) (n : Nat) :
    removeMatches norm pats n [] = [] := by
  cases n <;> rfl

theorem removeMatches_append_sep (norm : Char → Char) (sep : Char) (s : List Char)
    (pats : List (List Char)) (hpats : ∀ pat ∈ pats, ∀ p ∈ pat, norm p ≠ norm sep)
    (l : List Char) :
    ∀ n, n ≤ l.length →
      removeMatches norm pats n (l ++ sep :: s)
        = removeMatches norm pats n l ++ removeMatches norm pats 0 (sep :: s) := by
  induction l with
  | nil =>
    intro n hn
    have : n = 0 := by simpa using hn
    subst this
    simp [removeMatches_nil]
  | cons c cs ih =>
    intro n hn
    cases n with
    | succ k =>
      rw [List.cons_append]
      simp only [removeMatches]
      exact ih k (by simpa using hn)
    | zero =>
      have hfm := firstMatch_append_sep norm sep s pats hpats (c :: cs)
      rw [List.cons_append] at hfm
      rw [List.cons_append]
      cases hm : firstMatch norm pats (c :: cs) with
      | none =>
        rw [hm] at hfm
        have e1 : removeMatches norm pats 0 (c :: (cs ++ sep :: s))
            = c :: removeMatches norm pats 0 (cs ++ sep :: s) := by
          simp only [removeMatches, hfm]
        have e2 : removeMatches norm pats 0 (c :: cs)
            = c :: removeMatches norm pats 0 cs := by
          simp only [removeMatches, hm]
        rw [e1, e2, ih 0 (Nat.zero_le _)]
        rfl
      | some pat =>
        rw [hm] at hfm
        have hlen := firstMatch_length norm pats (c :: cs) pat hm
        simp only [List.length_cons] at hlen
        have e1 : removeMatches norm pats 0 (c :: (cs ++ sep :: s))
            = removeMatches norm pats (pat.length - 1) (cs ++ sep :: s) := by
          simp only [removeMatches, hfm]
        have e2 : removeMatches norm pats 0 (c :: cs)
            = removeMatches norm pats (pat.length - 1) cs := by
          simp only [removeMatches, hm]
        rw [e1, e2]
        exact ih (pat.length - 1) (by omega)

theorem removeMatches_skip (norm : Char → Char) (pats : List (List Char))
    (pre rest : List Char) :
    removeMatches norm pats pre.length (pre ++ rest) = removeMatches norm pats 0 rest := by
  induction pre with
  | nil => rfl
  | cons c cs ih => simpa [removeMatches] using ih

theorem removeMatches_head (pat rest : List Char) (hpat : pat ≠ []) :
    removeMatches id [pat] 0 (pat ++ rest) = removeMatches id [pat] 0 rest := by
  cases pat with
  | nil => exact absurd rfl hpat
  | cons p ps =>
    have hfm : firstMatch id [p :: ps] (p :: (ps ++ rest)) = some (p :: ps) := by
      have := startsWithChars_self_append (p :: ps) rest
      rw [List.cons_append] at this
      simp [firstMatch, List.find?, this]
    rw [List.cons_append]
    have e1 : removeMatches id [p :: ps] 0 (p :: (ps ++ rest))
        = removeMatches id [p :: ps] ps.length (ps ++ rest) := by
      simp only [removeMatches, hfm, List.length_cons, Nat.add_sub_cancel]
    rw [e1]
    exact removeMatches_skip id [p :: ps] ps rest

theorem removeMatches_sep (norm : Char → Char) (pats : List (List Char)) (c : Char)
    (s : List Char)
    (hpats : ∀ pat ∈ pats, ∃ p ps, pat = p :: ps ∧ norm p ≠ norm c) :
    removeMatches norm pats 0 (c :: s) = c :: removeMatches norm pats 0 s := by
  have hfm : firstMatch norm pats (c :: s) = none := by
    unfold firstMatch
    rw [List.find?_eq_none]
    intro pat hpat
    obtain ⟨p, ps, hp, hne⟩ := hpats pat hpat
    subst hp
    simp [startsWithChars, hne]
  simp only [removeMatches, hfm]

/-! ## Trimming a text that is padded with white space -/

theorem trimChars_cons_white (w : Char) (l : List Char) (hw : isJsWhiteSpace w = true) :
    trimChars (w :: l) = trimChars l := by
  simp [trimChars, List.dropWhile_cons, hw]

theorem trimChars_append_white (w : Char) (l : List Char) (hw : isJsWhiteSpace w = true) :
    trimChars (l ++ [w]) = trimChars l := by
  unfold trimChars
  rw [List.dropWhile_append]
  cases hd : List.dropWhile isJsWhiteSpace l with
  | nil => simp [List.dropWhile_cons, hw]
  | cons c cs =>
    simp only [List.isEmpty_cons, Bool.false_eq_true, if_false, List.reverse_append,
      List.reverse_cons, List.reverse_nil, List.nil_append, List.singleton_append]
    rw [List.dropWhile_cons_of_pos hw]

/-! ## Fence wrapping and the classifier -/

theorem jsonFence_chars_ne_newline :
    ∀ pat ∈ ["```json".data], ∀ p ∈ pat, id p ≠ id '\n' := by
  decide

theorem fence_chars_ne_newline :
    ∀ pat ∈ ["```".data], ∀ p ∈ pat, id p ≠ id '\n' := by
  decide

theorem jsonFence_head_ne_newline :
    ∀ pat ∈ ["```json".data], ∃ p ps, pat = p :: ps ∧ id p ≠ id '\n' := by
  intro pat hpat
  simp only [List.mem_singleton] at hpat
  subst hpat
  exact ⟨_, _, rfl, by decide⟩

theorem fence_head_ne_newline :
    ∀ pat ∈ ["```".data], ∃ p ps, pat = p :: ps ∧ id p ≠ id '\n' := by
  intro pat hpat
  simp only [List.mem_singleton] at hpat
  subst hpat
  exact ⟨_, _, rfl, by decide⟩

theorem removeFenceMarkers_inner (T : List Char) :
    removeMatches id ["```".data] 0
        (removeMatches id ["```json".data] 0 ('\n' :: (T ++ '\n' :: "```".data)))
      = '\n' :: (removeMatches id ["```".data] 0 (removeMatches id ["```json".data] 0 T)
          ++ ['\n']) := by
  have c1 : removeMatches id ["```json".data] 0 ('\n' :: "```".data)
      = '\n' :: "```".data := by decide
  have c2 : removeMatches id ["```".data] 0 ('\n' :: "```".data) = ['\n'] := by decide
  rw [removeMatches_sep id ["```json".data] '\n' _ jsonFence_head_ne_newline,
    removeMatches_append_sep id '\n' "```".data ["```json".data]
      jsonFence_chars_ne_newline T 0 (Nat.zero_le _),
    c1,
    removeMatches_sep id ["```".data] '\n' _ fence_head_ne_newline,
    removeMatches_append_sep id '\n' "```".data ["```".data]
      fence_chars_ne_newline _ 0 (Nat.zero_le _),
    c2]

theorem removeFenceMarkers_wrapped_json (T : List Char) :
    removeMatches id ["```".data] 0
        (removeMatches id ["```json".data] 0
          ("```json".data ++ '\n' :: (T ++ '\n' :: "```".data)))
      = '\n' :: (removeMatches id ["```".data] 0 (removeMatches id ["```json".data] 0 T)
          ++ ['\n']) := by
  rw [removeMatches_head "```json".data _ (by decide)]
  exact removeFenceMarkers_inner T

theorem removeFenceMarkers_wrapped_plain (T : List Char) :
    removeMatches id ["```".data] 0
        (removeMatches id ["```json".data] 0
          ("```".data ++ '\n' :: (T ++ '\n' :: "```".data)))
      = '\n' :: (removeMatches id ["```".data] 0 (removeMatches id ["```json".data] 0 T)
          ++ ['\n']) := by
  have c0 : removeMatches id ["```json".data] 0 "```".data = "```".data := by decide
  have c1 : removeMatches id ["```json".data] 0 ('\n' :: "```".data)
      = '\n' :: "```".data := by decide
  rw [removeMatches_append_sep id '\n' _ ["```json".data] jsonFence_chars_ne_newline
      "```".data 0 (Nat.zero_le _), c0,
    removeMatches_sep id ["```json".data] '\n' _ jsonFence_head_ne_newline,
    removeMatches_append_sep id '\n' "```".data ["```json".data]
      jsonFence_chars_ne_newline T 0 (Nat.zero_le _),
    c1]
  have c2 : removeMatches id ["```".data] 0 ('\n' :: "```".data) = ['\n'] := by decide
  rw [removeMatches_head "```".data _ (by decide),
    removeMatches_sep id ["```".data] '\n' _ fence_head_ne_newline,
    removeMatches_append_sep id '\n' "```".data ["```".data]
      fence_chars_ne_newline _ 0 (Nat.zero_le _),
    c2]

theorem trimChars_padded (Y : List Char) :
    trimChars ('\n' :: (Y ++ ['\n'])) = trimChars Y := by
  rw [trimChars_cons_white '\n' _ (by decide), trimChars_append_white '\n' _ (by decide)]

theorem wrapInFence_data (opening text : String) :
    (wrapInFence opening text).data
      = opening.data ++ '\n' :: (text.data ++ '\n' :: "```".data) := by
  have h1 : "\n".data = ['\n'] := rfl
  have h2 : "\n```".data = '\n' :: "```".data := rfl
  unfold wrapInFence
  rw [String.data_append, String.data_append, String.data_append, h1, h2,
    List.append_assoc, List.append_assoc]
  rfl

theorem cleanStr_wrapInFence_json (text : String) :
    cleanStr (wrapInFence "```json" text) = cleanStr text := by
  show String.mk (trimChars (removeMatches id ["```".data] 0
      (removeMatches id ["```json".data] 0 (wrapInFence "```json" text).data)))
    = String.mk (trimChars (removeMatches id ["```".data] 0
      (removeMatches id ["```json".data] 0 text.data)))
  rw [wrapInFence_data, removeFenceMarkers_wrapped_json, trimChars_padded]

theorem cleanStr_wrapInFence_plain (text : String) :
    cleanStr (wrapInFence "```" text) = cleanStr text := by
  show String.mk (trimChars (removeMatches id ["```".data] 0
      (removeMatches id ["```json".data] 0 (wrapInFence "```" text).data)))
    = String.mk (trimChars (removeMatches id ["```".data] 0
      (removeMatches id ["```json".data] 0 text.data)))
  rw [wrapInFence_data, removeFenceMarkers_wrapped_plain, trimChars_padded]

theorem classifyMessage_quizData_congr (parse : String → Option Json) (m1 m2 : Message)
    (hrole : m1.role = m2.role) (hclean : cleanStr m1.content = cleanStr m2.content) :
    (classifyMessage parse m1).quizData? = (classifyMessage parse m2).quizData? := by
  unfold classifyMessage
  rw [hrole, hclean]
  split
  · cases parse (cleanStr m2.content) with
    | none => rfl
    | some v =>
      cases v with
      | arr items =>
        simp only
        split <;> rfl
      | null => rfl
      | bool b => rfl
      | num m e => rfl
      | str t => rfl
      | obj fields => rfl
  · rfl

/-- C27: wrapping a text as a whole in one code fence, opened by the fence
followed by `json` or by the fence alone, does not change what the classifier
hands to the parser, so the classification (quiz with its parsed array, or
markdown) of the wrapped text is that of the text alone. -/
theorem classifyMessage_fence_wrapping (parse : String → Option Json) (role : Role)
    (text : String) (suggestions : Option (List String)) :
    cleanStr (wrapInFence "```json" text) = cleanStr text ∧
    cleanStr (wrapInFence "```" text) = cleanStr text ∧
    (classifyMessage parse
        { role := role, content := wrapInFence "```json" text,
          suggestions := suggestions }).quizData?
      = (classifyMessage parse
          { role := role, content := text, suggestions := suggestions }).quizData? ∧
    (classifyMessage parse
        { role := role, content := wrapInFence "```" text,
          suggestions := suggestions }).quizData?
      = (classifyMessage parse
          { role := role, content := text, suggestions := suggestions }).quizData? :=
  ⟨cleanStr_wrapInFence_json text, cleanStr_wrapInFence_plain text,
   classifyMessage_quizData_congr parse _ _ rfl (cleanStr_wrapInFence_json text),
   classifyMessage_quizData_congr parse _ _ rfl (cleanStr_wrapInFence_plain text)⟩

/-! ## Removing fenced code blocks before speaking -/

theorem fence_eq : fence = [Char.ofNat 96, Char.ofNat 96, Char.ofNat 96] := by
  decide

theorem startsWithChars_id_iff (pat : List Char) :
    ∀ l : List Char, startsWithChars id pat l = true ↔ ∃ r, l = pat ++ r := by
  induction pat with
  | nil =>
    intro l
    constructor
    · intro _; exact ⟨l, rfl⟩
    · intro _; cases l <;> rfl
  | cons p ps ih =>
    intro l
    cases l with
    | nil => simp [startsWithChars]
    | cons c cs =>
      simp only [startsWithChars, Bool.and_eq_true, decide_eq_true_eq, id, ih cs,
        List.cons_append, List.cons.injEq]
      constructor
      · rintro ⟨hpc, r, hr⟩
        exact ⟨r, hpc.symm, hr⟩
      · rintro ⟨r, hpc, hr⟩
        exact ⟨hpc.symm, r, hr⟩

theorem findFence_eq_none (l : List Char) :
    findFence l = none ↔ ¬ ∃ a c, l = a ++ fence ++ c := by
  induction l with
  | nil =>
    constructor
    · intro _
      rintro ⟨a, c, h⟩
      have := congrArg List.length h
      simp [fence_eq] at this
      omega
    · intro _; rfl
  | cons x xs ih =>
    by_cases hs : startsWithChars id fence (x :: xs) = true
    · constructor
      · intro h
        simp [findFence, hs] at h
      · intro h
        obtain ⟨r, hr⟩ := (startsWithChars_id_iff fence (x :: xs)).mp hs
        exact absurd ⟨[], r, by simpa using hr⟩ h
    · have hfind : findFence (x :: xs) = (findFence xs).map (· + 1) := by
        simp [findFence, hs]
      rw [hfind, Option.map_eq_none', ih]
      constructor
      · intro h
        rintro ⟨a, c, hac⟩
        cases a with
        | nil =>
          exact hs ((startsWithChars_id_iff fence (x :: xs)).mpr ⟨c, by simpa using hac⟩)
        | cons a0 as =>
          simp only [List.cons_append, List.cons.injEq] at hac
          exact h ⟨as, c, hac.2⟩
      · intro h
        rintro ⟨a, c, hac⟩
        exact h ⟨x :: a, c, by simp [hac]⟩

theorem findFence_eq_some (l : List Char) :
    ∀ i, findFence l = some i → ∃ a c, l = a ++ fence ++ c ∧ a.length = i := by
  induction l with
  | nil => intro i h; simp [findFence] at h
  | cons x xs ih =>
    intro i h
    by_cases hs : startsWithChars id fence (x :: xs) = true
    · obtain ⟨r, hr⟩ := (startsWithChars_id_iff fence (x :: xs)).mp hs
      have hi : i = 0 := by simpa [findFence, hs] using h.symm
      exact ⟨[], r, by simpa using hr, by simp [hi]⟩
    · have hfind : findFence (x :: xs) = (findFence xs).map (· + 1) := by
        simp [findFence, hs]
      rw [hfind, Option.map_eq_some'] at h
      obtain ⟨j, hj, hji⟩ := h
      obtain ⟨a, c, hac, hlen⟩ := ih j hj
      exact ⟨x :: a, c, by simp [hac], by simp [hlen, hji]⟩

theorem fenceLength_eq_some (l : List Char) (len : Nat) (h : fenceLength l = some len) :
    ∃ a rest, l = fence ++ a ++ fence ++ rest ∧ len = a.length + 6 := by
  unfold fenceLength at h
  by_cases hs : startsWithChars id fence l = true
  · obtain ⟨r, hr⟩ := (startsWithChars_id_iff fence l).mp hs
    have hdrop : l.drop 3 = r := by
      rw [hr, fence_eq]; rfl
    rw [if_pos hs, hdrop, Option.map_eq_some'] at h
    obtain ⟨i, hi, hlen⟩ := h
    obtain ⟨a, c, hac, hal⟩ := findFence_eq_some r i hi
    exact ⟨a, c, by rw [hr, hac]; simp, by omega⟩
  · rw [if_neg hs] at h
    exact absurd h (by simp)

theorem fenceLength_eq_none (l : List Char) (h : fenceLength l = none) :
    ¬ ∃ a rest, l = fence ++ a ++ fence ++ rest := by
  rintro ⟨a, rest, hl⟩
  unfold fenceLength at h
  have hs : startsWithChars id fence l = true :=
    (startsWithChars_id_iff fence l).mpr ⟨a ++ fence ++ rest, by rw [hl]; simp⟩
  have hdrop : l.drop 3 = a ++ fence ++ rest := by
    rw [hl, fence_eq]; simp
  rw [if_pos hs, hdrop, Option.map_eq_none'] at h
  exact (findFence_eq_none _).mp h ⟨a, rest, rfl⟩

theorem removeFencesFrom_nil (n : Nat) : removeFencesFrom n [] = [] := by
  cases n <;> rfl

theorem removeFencesFrom_skip (l : List Char) :
    ∀ n, removeFencesFrom n l = removeFencesFrom 0 (l.drop n) := by
  induction l with
  | nil => intro n; simp [removeFencesFrom_nil]
  | cons c cs ih =>
    intro n
    cases n with
    | zero => rfl
    | succ k =>
      simp only [removeFencesFrom, List.drop_succ_cons]
      exact ih k

theorem removeFences_cons_some (c : Char) (cs : List Char) (len : Nat)
    (h : fenceLength (c :: cs) = some len) :
    removeFences (c :: cs) = removeFences ((c :: cs).drop len) := by
  obtain ⟨a, rest, _, hlen⟩ := fenceLength_eq_some (c :: cs) len h
  have e1 : removeFences (c :: cs) = removeFencesFrom (len - 1) cs := by
    simp only [removeFences, removeFencesFrom, h]
  have e2 : (c :: cs).drop len = cs.drop (len - 1) := by
    have : len = (len - 1) + 1 := by omega
    rw [this, List.drop_succ_cons]
    rfl
  rw [e1, e2, removeFencesFrom_skip]
  rfl

theorem removeFences_cons_none (c : Char) (cs : List Char)
    (h : fenceLength (c :: cs) = none) :
    removeFences (c :: cs) = c :: removeFences cs := by
  simp only [removeFences, removeFencesFrom, h]

theorem removeFences_of_no_fence (l : List Char) (h : ¬ ∃ a c, l = a ++ fence ++ c) :
    removeFences l = l := by
  induction l with
  | nil => rfl
  | cons x xs ih =>
    have hnone : fenceLength (x :: xs) = none := by
      cases hf : fenceLength (x :: xs) with
      | none => rfl
      | some len =>
        obtain ⟨a, rest, hl, _⟩ := fenceLength_eq_some (x :: xs) len hf
        exact absurd ⟨[], a ++ fence ++ rest, by rw [hl]; simp⟩ h
    rw [removeFences_cons_none x xs hnone,
      ih (fun ⟨a, c, hac⟩ => h ⟨x :: a, c, by simp [hac]⟩)]

theorem removeFences_head (l : List Char) (d : Char) (w : List Char)
    (h : removeFences l = d :: w) :
    (∃ a rest, l = fence ++ a ++ fence ++ rest) ∨
    (∃ cs, l = d :: cs ∧ w = removeFences cs ∧ fenceLength l = none) := by
  cases l with
  | nil => exact absurd h (by simp [removeFences, removeFencesFrom])
  | cons c cs =>
    cases hf : fenceLength (c :: cs) with
    | some len =>
      obtain ⟨a, rest, hl, _⟩ := fenceLength_eq_some (c :: cs) len hf
      exact Or.inl ⟨a, rest, hl⟩
    | none =>
      rw [removeFences_cons_none c cs hf] at h
      simp only [List.cons.injEq] at h
      exact Or.inr ⟨cs, by rw [h.1], h.2.symm, rfl⟩

theorem removeFences_fence_origin (n : Nat) :
    ∀ l : List Char, l.length ≤ n → ∀ x y, removeFences l = x ++ fence ++ y →
      (∃ x0, l = x0 ++ fence ++ y) ∧ ¬ ∃ a c, y = a ++ fence ++ c := by
  induction n with
  | zero =>
    intro l hl x y h
    have hnil : l = [] := List.length_eq_zero.mp (Nat.le_zero.mp hl)
    subst hnil
    have := congrArg List.length h
    simp [removeFences, removeFencesFrom, fence_eq] at this
    omega
  | succ n ih =>
    intro l hl x y h
    cases l with
    | nil =>
      have := congrArg List.length h
      simp [removeFences, removeFencesFrom, fence_eq] at this
      omega
    | cons c cs =>
      cases hf : fenceLength (c :: cs) with
      | some len =>
        obtain ⟨a, rest, hlr, hlen⟩ := fenceLength_eq_some (c :: cs) len hf
        have hdrop : (c :: cs).drop len = rest := by
          rw [hlr]
          have hpre : (fence ++ a ++ fence).length = len := by
            simp [fence_eq]; omega
          rw [← hpre, List.drop_left]
        rw [removeFences_cons_some c cs len hf, hdrop] at h
        have hrest : rest.length ≤ n := by
          have := congrArg List.length hlr
          simp [fence_eq] at this
          simp only [List.length_cons] at hl
          omega
        obtain ⟨⟨x0, hx0⟩, hy⟩ := ih rest hrest x y h
        exact ⟨⟨fence ++ a ++ fence ++ x0, by rw [hlr, hx0]; simp⟩, hy⟩
      | none =>
        rw [removeFences_cons_none c cs hf] at h
        have hcs : cs.length ≤ n := by
          simp only [List.length_cons] at hl
          omega
        cases x with
        | cons x1 xs =>
          simp only [List.cons_append, List.cons.injEq] at h
          obtain ⟨⟨x0, hx0⟩, hy⟩ := ih cs hcs xs y h.2
          exact ⟨⟨c :: x0, by rw [hx0]; simp⟩, hy⟩
        | nil =>
          rw [fence_eq] at h
          simp only [List.nil_append, List.cons_append, List.cons.injEq] at h
          obtain ⟨hc, h2⟩ := h
          have hno := fenceLength_eq_none (c :: cs) hf
          rcases removeFences_head cs _ _ h2 with ⟨a, rest, hl2⟩ | ⟨cs2, hcs2, hw2, _⟩
          · exact absurd ⟨Char.ofNat 96 :: a, rest, by rw [hl2, hc, fence_eq]; simp⟩ hno
          · rcases removeFences_head cs2 _ _ hw2.symm with
              ⟨a, rest, hl3⟩ | ⟨cs3, hcs3, hw3, _⟩
            · exact absurd
                ⟨Char.ofNat 96 :: Char.ofNat 96 :: a, rest,
                  by rw [hcs2, hl3, hc, fence_eq]; simp⟩ hno
            · have hl : c :: cs = fence ++ cs3 := by
                rw [hcs2, hcs3, hc, fence_eq]; simp
              have hno3 : ¬ ∃ a r, cs3 = a ++ fence ++ r := by
                rintro ⟨a, r, har⟩
                exact hno ⟨a, r, by rw [hl, har]; simp⟩
              have hy : y = cs3 := by
                rw [hw3, removeFences_of_no_fence cs3 hno3]
              exact ⟨⟨[], by rw [hl, hy]; simp⟩, by rw [hy]; exact hno3⟩

theorem removeFences_has_no_block (l : List Char) : ¬ HasFencedBlock (removeFences l) := by
  rintro ⟨a, b, c, h⟩
  have h' : removeFences l = a ++ fence ++ (b ++ fence ++ c) := by
    rw [h]; simp
  exact (removeFences_fence_origin l.length l (Nat.le_refl _) a _ h').2 ⟨b, c, rfl⟩

theorem mem_of_mem_removeFencesFrom (x : Char) (l : List Char) :
    ∀ n, x ∈ removeFencesFrom n l → x ∈ l := by
  induction l with
  | nil => intro n h; simp [removeFencesFrom_nil] at h
  | cons c cs ih =>
    intro n h
    cases n with
    | succ k =>
      simp only [removeFencesFrom] at h
      exact List.mem_cons_of_mem c (ih k h)
    | zero =>
      simp only [removeFencesFrom] at h
      cases hf : fenceLength (c :: cs) with
      | some len =>
        rw [hf] at h
        exact List.mem_cons_of_mem c (ih _ h)
      | none =>
        rw [hf] at h
        rcases List.mem_cons.mp h with h1 | h1
        · rw [h1]; exact List.mem_cons_self c cs
        · exact List.mem_cons_of_mem c (ih 0 h1)

theorem removeMarkers_of_no_marker (l : List Char) (h1 : '*' ∉ l) (h2 : '#' ∉ l) :
    removeMarkers l = l := by
  unfold removeMarkers
  rw [List.filter_eq_self]
  intro c hc
  have hc1 : c ≠ '*' := fun e => h1 (e ▸ hc)
  have hc2 : c ≠ '#' := fun e => h2 (e ▸ hc)
  simp [hc1, hc2]

theorem markerAfterBacktick_tail (c : Char) (l : List Char)
    (h : markerAfterBacktick (c :: l) = false) : markerAfterBacktick l = false := by
  cases l with
  | nil => rfl
  | cons d w =>
    simp only [markerAfterBacktick, Bool.or_eq_false_iff] at h
    exact h.2

theorem markerAfterBacktick_suffix (x l : List Char)
    (h : markerAfterBacktick (x ++ l) = false) : markerAfterBacktick l = false := by
  induction x with
  | nil => exact h
  | cons c cs ih =>
    rw [List.cons_append] at h
    exact ih (markerAfterBacktick_tail c _ h)

theorem markerAfterBacktick_pair (m : Char) (z : List Char)
    (h : markerAfterBacktick (Char.ofNat 96 :: m :: z) = false) :
    (m = '*' || m = '#') = false := by
  simp only [markerAfterBacktick, Bool.or_eq_false_iff, Bool.and_eq_false_imp,
    decide_eq_true_eq] at h
  exact Bool.or_eq_false_iff.mpr (h.1 trivial)

theorem removeFences_keeps_no_marker_after_backtick (n : Nat) :
    ∀ l : List Char, l.length ≤ n → markerAfterBacktick l = false →
      markerAfterBacktick (removeFences l) = false := by
  induction n with
  | zero =>
    intro l hl _
    have hnil : l = [] := List.length_eq_zero.mp (Nat.le_zero.mp hl)
    subst hnil
    rfl
  | succ n ih =>
    intro l hl hP
    cases l with
    | nil => rfl
    | cons c cs =>
      cases hf : fenceLength (c :: cs) with
      | some len =>
        obtain ⟨a, rest, hlr, hlen⟩ := fenceLength_eq_some (c :: cs) len hf
        have hdrop : (c :: cs).drop len = rest := by
          rw [hlr]
          have hpre : (fence ++ a ++ fence).length = len := by
            simp [fence_eq]; omega
          rw [← hpre, List.drop_left]
        rw [removeFences_cons_some c cs len hf, hdrop]
        have hrest : rest.length ≤ n := by
          have := congrArg List.length hlr
          simp [fence_eq] at this
          simp only [List.length_cons] at hl
          omega
        have hPrest : markerAfterBacktick rest = false := by
          rw [hlr] at hP
          exact markerAfterBacktick_suffix (fence ++ a ++ fence) rest hP
        exact ih rest hrest hPrest
      | none =>
        rw [removeFences_cons_none c cs hf]
        have hcs : cs.length ≤ n := by
          simp only [List.length_cons] at hl
          omega
        have hPcs := markerAfterBacktick_tail c cs hP
        have hR := ih cs hcs hPcs
        cases hRcs : removeFences cs with
        | nil => rfl
        | cons d w =>
          rw [hRcs] at hR
          simp only [markerAfterBacktick, Bool.or_eq_false_iff]
          refine ⟨?_, hR⟩
          by_cases hc : c = Char.ofNat 96
          · have hno := fenceLength_eq_none (c :: cs) hf
            rcases removeFences_head cs d w hRcs with ⟨a, rest, hl2⟩ | ⟨cs2, hcs2, _, _⟩
            · exact absurd ⟨Char.ofNat 96 :: a, rest, by rw [hl2, hc, fence_eq]; simp⟩ hno
            · rw [hcs2, hc] at hP
              have := markerAfterBacktick_pair d cs2 hP
              simp [this]
          · simp [hc]

theorem removeMarkers_next_backtick (l w : List Char)
    (hP : markerAfterBacktick (Char.ofNat 96 :: l) = false)
    (h : removeMarkers l = Char.ofNat 96 :: w) :
    ∃ l2, l = Char.ofNat 96 :: l2 ∧ removeMarkers l2 = w := by
  unfold removeMarkers at h
  obtain ⟨ms, l2, hl, hms, _, hw⟩ := List.filter_eq_cons_iff.mp h
  cases ms with
  | nil => exact ⟨l2, by simpa using hl, hw⟩
  | cons m0 ms2 =>
    have hm0 := hms m0 (by simp)
    rw [hl, List.cons_append] at hP
    have := markerAfterBacktick_pair m0 _ hP
    simp [this] at hm0

theorem removeMarkers_fence_origin (l a y : List Char)
    (hP : markerAfterBacktick l = false)
    (h : removeMarkers l = a ++ fence ++ y) :
    ∃ a2 y2, l = a2 ++ fence ++ y2 ∧ removeMarkers y2 = y ∧
      markerAfterBacktick y2 = false := by
  have h' : List.filter (fun c => !(c = '*' || c = '#')) l
      = a ++ (Char.ofNat 96 :: Char.ofNat 96 :: Char.ofNat 96 :: y) := by
    have : removeMarkers l = a ++ (Char.ofNat 96 :: Char.ofNat 96 :: Char.ofNat 96 :: y) := by
      rw [h, fence_eq]; simp
    exact this
  obtain ⟨l1, l2, hl, _, h2⟩ := List.filter_eq_append_iff.mp h'
  obtain ⟨ms, l3, hl2, _, _, h3⟩ := List.filter_eq_cons_iff.mp h2
  have hP3 : markerAfterBacktick (Char.ofNat 96 :: l3) = false := by
    rw [hl, hl2, ← List.append_assoc] at hP
    exact markerAfterBacktick_suffix (l1 ++ ms) _ hP
  obtain ⟨l4, hl4, h4⟩ := removeMarkers_next_backtick l3 _ hP3 h3
  have hP4 : markerAfterBacktick (Char.ofNat 96 :: l4) = false := by
    rw [hl4] at hP3
    exact markerAfterBacktick_tail _ _ hP3
  obtain ⟨l5, hl5, h5⟩ := removeMarkers_next_backtick l4 _ hP4 h4
  have hP5 : markerAfterBacktick l5 = false := by
    rw [hl5] at hP4
    exact markerAfterBacktick_tail _ _ (markerAfterBacktick_tail _ _ hP4)
  exact ⟨l1 ++ ms, l5, by rw [hl, hl2, hl4, hl5, fence_eq]; simp, h5, hP5⟩

theorem removeMarkers_block_origin (l : List Char)
    (hP : markerAfterBacktick l = false) (h : HasFencedBlock (removeMarkers l)) :
    HasFencedBlock l := by
  obtain ⟨a, b, c, habc⟩ := h
  have h1 : removeMarkers l = a ++ fence ++ (b ++ fence ++ c) := by
    rw [habc]; simp
  obtain ⟨a2, y2, hl, hy2, hPy⟩ := removeMarkers_fence_origin l a _ hP h1
  obtain ⟨b2, c2, hy, _, _⟩ := removeMarkers_fence_origin y2 b c hPy hy2
  exact ⟨a2, b2, c2, by rw [hl, hy]; simp⟩

/-- C23, as stated, fails: in this text each run of three backticks is broken
by a `*` or a `#`, so the first replacement finds no fenced block, and removing
the markers afterwards joins the backticks into two fences around ` x `. -/
theorem cleanText_joined_fences_counterexample :
    cleanText "``*` x ``#`" = "``` x ```" ∧
    HasFencedBlock (cleanText "``*` x ``#`").data :=
  ⟨by decide, [], " x ".data, [], by decide⟩

/-- C23, amended: the text handed to the synthesizer contains no `*` and no
`#`, and, when in the original text no `*` or `#` stands directly after a
backtick, no fenced code block (no fence followed later by another fence). -/
theorem cleanText_markers_and_fences (text : String) :
    '*' ∉ (cleanText text).data ∧
    '#' ∉ (cleanText text).data ∧
    (markerAfterBacktick text.data = false → ¬ HasFencedBlock (cleanText text).data) := by
  refine ⟨?_, ?_, ?_⟩
  · intro h
    have h' : '*' ∈ removeMarkers (removeFences text.data) := h
    simp [removeMarkers] at h'
  · intro h
    have h' : '#' ∈ removeMarkers (removeFences text.data) := h
    simp [removeMarkers] at h'
  · intro hP hblock
    have hR := removeFences_keeps_no_marker_after_backtick text.data.length text.data
      (Nat.le_refl _) hP
    have hblock' : HasFencedBlock (removeMarkers (removeFences text.data)) := hblock
    exact removeFences_has_no_block text.data
      (removeMarkers_block_origin (removeFences text.data) hR hblock')

/-- Witness for the amended C23: a markdown answer with a heading, emphasis and
a fenced block; the markers stand after a space, a letter or a line break, not
after a backtick. -/
theorem cleanText_markers_and_fences_witness :
    markerAfterBacktick "# Sets\n**Union** joins.\n```py\na | b\n```\nDone *now*.".data = false ∧
    cleanText "# Sets\n**Union** joins.\n```py\na | b\n```\nDone *now*."
      = " Sets\nUnion joins.\n\nDone now." ∧
    ¬ HasFencedBlock
      (cleanText "# Sets\n**Union** joins.\n```py\na | b\n```\nDone *now*.").data :=
  ⟨by decide, by decide,
   (cleanText_markers_and_fences "# Sets\n**Union** joins.\n```py\na | b\n```\nDone *now*.").2.2
     (by decide)⟩

end StudyAI
